import Mathlib

/-!
Verification development for the sketch-ui-generator repository.

This file shallowly embeds the parts of `src/scripts/sketch-generator.cjs`
(node constructors, color codec, UUID generator, module assembly effects,
packer decision logic) and `src/scripts/sketch-validator.cjs` (the structural
validator over parsed JSON values and the cross-file directory walk) that the
claims refer to, and proves or refutes each claim against the embedding.

Conventions used throughout the embedding:
- JavaScript numbers are modeled as rationals (`Rat`); NaN and signed zero do
  not occur in any of the inputs the theorems quantify over.
- JavaScript strings are modeled as Lean strings; all string indexing in the
  source operates on UTF-16 code units, which agrees with code points for
  Basic Multilingual Plane content (everything the repository produces).
- `Math.random()` and the derived identifier stream are abstracted as an
  injected stream parameter, quantified universally in the theorems.
- Fallible JSON file reads are modeled as `Except String JsVal` values
  (the error carries the message of the exception `JSON.parse` would throw).
-/

/-! ## A model of parsed JSON / JavaScript values

`JsVal` models the values the validator walks: everything `JSON.parse` can
produce, plus `undefined` for the result of accessing a missing property. -/

inductive JsVal where
  | undefined : JsVal
  | null : JsVal
  | bool : Bool → JsVal
  | num : Rat → JsVal
  | str : String → JsVal
  | arr : List JsVal → JsVal
  | obj : List (String × JsVal) → JsVal

/-- Property lookup in an object literal: first binding wins (JavaScript
objects cannot hold duplicate keys, so parsed objects have distinct keys). -/
def lookupField : List (String × JsVal) → String → JsVal
  | [], _ => .undefined
  | (k, v) :: rest, key => if k == key then v else lookupField rest key

/-- `jsGet v key` models the JavaScript property access `v[key]` / `v.key`:
missing properties and access on primitives yield `undefined`. (Property
access on `null`/`undefined` throws a TypeError in JavaScript; the validator
only reaches such an access on malformed inputs that none of the theorems
below quantify over, and the model yields `undefined` there.) -/
def jsGet : JsVal → String → JsVal
  | .obj fields, key => lookupField fields key
  | _, _ => .undefined

/-- JavaScript truthiness: `undefined`, `null`, `false`, `0` and `""` are
falsy, everything else (including empty arrays and objects) is truthy. -/
def jsTruthy : JsVal → Bool
  | .undefined => false
  | .null => false
  | .bool b => b
  | .num q => !(q == 0)
  | .str s => !(s == "")
  | .arr _ => true
  | .obj _ => true

/-- `typeof v === 'object'`: true for objects, arrays and `null`. -/
def jsIsObjectType : JsVal → Bool
  | .obj _ => true
  | .arr _ => true
  | .null => true
  | _ => false

/-- `typeof v === 'number'`. -/
def jsIsNumber : JsVal → Bool
  | .num _ => true
  | _ => false

/-- `typeof v === 'string'`. -/
def jsIsString : JsVal → Bool
  | .str _ => true
  | _ => false

/-- `typeof v === 'boolean'`. -/
def jsIsBoolean : JsVal → Bool
  | .bool _ => true
  | _ => false

/-- `Array.isArray(v)`. -/
def jsIsArrayVal : JsVal → Bool
  | .arr _ => true
  | _ => false

/-- Strict equality `v === s` against a string literal: only a string of the
same content compares equal. -/
def jsEqStr (v : JsVal) (s : String) : Bool :=
  match v with
  | .str t => t == s
  | _ => false

/-- Strict equality `v === n` against a number literal. -/
def jsEqNum (v : JsVal) (n : Rat) : Bool :=
  match v with
  | .num q => q == n
  | _ => false

/-- Rendering of a rational as a string, used only where JavaScript would
coerce a number to a string before a regular-expression test. JavaScript
prints doubles in decimal notation; this model prints `num/den`. The two
renderings agree on integers, and neither can ever match the UUID pattern
below (which admits only hexadecimal digits and dashes in a fixed 36-column
layout), so every use in this file is extensionally faithful. -/
def ratToJsString (q : Rat) : String :=
  if q.den = 1 then toString q.num else toString q.num ++ "/" ++ toString q.den

mutual

/-- JavaScript string coercion `String(v)` for the values of `JsVal`:
`undefined`/`null`/booleans print their names, arrays join their elements
with commas (with `null`/`undefined` elements printing as empty), and plain
objects print `[object Object]`. -/
def jsToStr : JsVal → String
  | .undefined => "undefined"
  | .null => "null"
  | .bool b => if b then "true" else "false"
  | .num q => ratToJsString q
  | .str s => s
  | .arr xs => String.intercalate "," (jsToStrList xs)
  | .obj _ => "[object Object]"

/-- Element-wise coercion used by array joining (`Array.prototype.toString`):
`null` and `undefined` elements become the empty string. -/
def jsToStrList : List JsVal → List String
  | [] => []
  | .null :: rest => "" :: jsToStrList rest
  | .undefined :: rest => "" :: jsToStrList rest
  | .bool b :: rest => (if b then "true" else "false") :: jsToStrList rest
  | .num q :: rest => ratToJsString q :: jsToStrList rest
  | .str s :: rest => s :: jsToStrList rest
  | .arr xs :: rest => String.intercalate "," (jsToStrList xs) :: jsToStrList rest
  | .obj _ :: rest => "[object Object]" :: jsToStrList rest

end

/-! ## sketch-validator.cjs: `isValidUUID` -/

/-- A character matching the case-insensitive hexadecimal class `[0-9A-F]`
of the UUID regular expression (the regex carries the `i` flag). -/
def isHexDigitCI (c : Char) : Bool :=
  ('0' ≤ c && c ≤ '9') || ('A' ≤ c && c ≤ 'F') || ('a' ≤ c && c ≤ 'f')

/-- Column-wise reading of the anchored pattern
`/^[0-9A-F]{8}-[0-9A-F]{4}-4[0-9A-F]{3}-[89AB][0-9A-F]{3}-[0-9A-F]{12}$/i`:
dashes at indices 8, 13, 18 and 23, the literal `4` at index 14, one of
`8 9 A B` (case-insensitively) at index 19, hexadecimal digits elsewhere. -/
def uuidCharOk (i : Nat) (c : Char) : Bool :=
  if i = 8 ∨ i = 13 ∨ i = 18 ∨ i = 23 then c == '-'
  else if i = 14 then c == '4'
  else if i = 19 then c == '8' || c == '9' || c == 'A' || c == 'B' || c == 'a' || c == 'b'
  else isHexDigitCI c

/-- Embeds `isValidUUID` (sketch-validator.cjs lines 15-18): the argument
matches the anchored 36-character 8-4-4-4-12 pattern described above. -/
def isValidUUID (s : String) : Bool :=
  s.data.length == 36 && (List.range 36).all fun i => uuidCharOk i (s.data.getD i ' ')

/-- `isValidUUID` as called on an arbitrary parsed value: `RegExp.test`
coerces its argument to a string first. -/
def isValidUUIDVal (v : JsVal) : Bool :=
  isValidUUID (jsToStr v)

/-! ## sketch-generator.cjs: `generateUUID`

The generator draws one `Math.random()` value per non-fixed character; the
model indexes the abstract random stream by character position (a bijective
relabeling of the call order, immaterial under the universal quantification
over streams). -/

/-- The character table `'0123456789ABCDEF'` indexed by the source. -/
def hexTable : List Char := "0123456789ABCDEF".data

/-- One character of the UUID under construction, from the random draw `r`
for position `i` (sketch-generator.cjs lines 41-51): dashes at 8/13/18/23,
`'4'` at 14, `hex[(r*4)|8]` at 19 (bitwise OR of a truncated value below 4
with 8, hence an index in 8..11), `hex[(r*16)|0]` elsewhere. -/
def uuidRawChar (i : Nat) (r : Rat) : Char :=
  if i = 8 ∨ i = 13 ∨ i = 18 ∨ i = 23 then '-'
  else if i = 14 then '4'
  else if i = 19 then hexTable.getD ((Int.toNat ⌊r * 4⌋) ||| 8) '0'
  else hexTable.getD (Int.toNat ⌊r * 16⌋) '0'

/-- Embeds `generateUUID` (sketch-generator.cjs lines 38-53). The trailing
`toUpperCase()` of the source maps every character through upper-casing. -/
def generateUUID (rand : Nat → Rat) : String :=
  ⟨(List.range 36).map fun i => Char.toUpper (uuidRawChar i (rand i))⟩

/-! ### C2 support lemmas -/

theorem uuidRawChar_ok (i : Nat) (r : Rat) (h0 : 0 ≤ r) (h1 : r < 1) :
    uuidCharOk i (Char.toUpper (uuidRawChar i r)) = true := by
  unfold uuidRawChar uuidCharOk
  split
  · decide
  · split
    · decide
    · split
      · have h4 : (⌊r * 4⌋).toNat < 4 := by
          have hf : ⌊r * 4⌋ < 4 := by
            have : r * 4 < 4 := by nlinarith
            exact Int.floor_lt.mpr (by exact_mod_cast this)
          omega
        interval_cases h : (⌊r * 4⌋).toNat <;> decide
      · have h16 : (⌊r * 16⌋).toNat < 16 := by
          have hf : ⌊r * 16⌋ < 16 := by
            have : r * 16 < 16 := by nlinarith
            exact Int.floor_lt.mpr (by exact_mod_cast this)
          omega
        interval_cases h : (⌊r * 16⌋).toNat <;> decide

theorem generateUUID_data (rand : Nat → Rat) :
    (generateUUID rand).data = (List.range 36).map fun i => Char.toUpper (uuidRawChar i (rand i)) :=
  rfl

theorem uuidRawChar_dash (i : Nat) (r : Rat)
    (hi : i = 8 ∨ i = 13 ∨ i = 18 ∨ i = 23) : uuidRawChar i r = '-' := by
  unfold uuidRawChar
  rw [if_pos hi]

theorem uuidRawChar_14 (r : Rat) : uuidRawChar 14 r = '4' := by
  unfold uuidRawChar
  rw [if_neg (by omega), if_pos rfl]

theorem uuidRawChar_19_mem (r : Rat) (h0 : 0 ≤ r) (h1 : r < 1) :
    Char.toUpper (uuidRawChar 19 r) ∈ ['8', '9', 'A', 'B'] := by
  unfold uuidRawChar
  rw [if_neg (by omega), if_neg (by omega), if_pos rfl]
  have h4 : (⌊r * 4⌋).toNat < 4 := by
    have hf : ⌊r * 4⌋ < 4 := by
      have : r * 4 < 4 := by nlinarith
      exact Int.floor_lt.mpr (by exact_mod_cast this)
    omega
  interval_cases hc : (⌊r * 4⌋).toNat <;> decide

/-- C2: for every sequence of values the random source can yield (each draw
in `[0, 1)` as `Math.random` guarantees), `generateUUID` returns a
36-character string in 8-4-4-4-12 layout with dashes at positions 8, 13, 18
and 23, character 14 equal to `'4'` and character 19 in `{'8','9','A','B'}`;
in particular every output satisfies the validator's `isValidUUID` check. -/
theorem generateUUID_isValidUUID (rand : Nat → Rat)
    (h : ∀ i, 0 ≤ rand i ∧ rand i < 1) :
    isValidUUID (generateUUID rand) = true ∧
    (generateUUID rand).data.length = 36 ∧
    (generateUUID rand).data.getD 8 ' ' = '-' ∧
    (generateUUID rand).data.getD 13 ' ' = '-' ∧
    (generateUUID rand).data.getD 18 ' ' = '-' ∧
    (generateUUID rand).data.getD 23 ' ' = '-' ∧
    (generateUUID rand).data.getD 14 ' ' = '4' ∧
    (generateUUID rand).data.getD 19 ' ' ∈ ['8', '9', 'A', 'B'] := by
  have hdata := generateUUID_data rand
  have hlen : (generateUUID rand).data.length = 36 := by
    rw [hdata]; simp
  have hget : ∀ i, i < 36 →
      (generateUUID rand).data.getD i ' ' = Char.toUpper (uuidRawChar i (rand i)) := by
    intro i hi
    rw [hdata, List.getD_eq_getElem?_getD, List.getElem?_map, List.getElem?_range hi]
    rfl
  have hok : ∀ i, i < 36 →
      uuidCharOk i ((generateUUID rand).data.getD i ' ') = true := by
    intro i hi
    rw [hget i hi]
    exact uuidRawChar_ok i (rand i) (h i).1 (h i).2
  refine ⟨?_, hlen, ?_, ?_, ?_, ?_, ?_, ?_⟩
  · unfold isValidUUID
    rw [Bool.and_eq_true, List.all_eq_true]
    constructor
    · rw [hlen]; decide
    · intro i hi
      exact hok i (by simpa using List.mem_range.mp hi)
  · rw [hget 8 (by omega), uuidRawChar_dash 8 _ (by omega)]; decide
  · rw [hget 13 (by omega), uuidRawChar_dash 13 _ (by omega)]; decide
  · rw [hget 18 (by omega), uuidRawChar_dash 18 _ (by omega)]; decide
  · rw [hget 23 (by omega), uuidRawChar_dash 23 _ (by omega)]; decide
  · rw [hget 14 (by omega), uuidRawChar_14]; decide
  · rw [hget 19 (by omega)]
    exact uuidRawChar_19_mem (rand 19) (h 19).1 (h 19).2

/-- Witness for C2: the constant-zero stream satisfies the range hypothesis
and produces a string accepted by `isValidUUID`. -/
theorem generateUUID_isValidUUID_witness :
    (∀ i, 0 ≤ (fun _ : Nat => (0 : Rat)) i ∧ (fun _ : Nat => (0 : Rat)) i < 1) ∧
    isValidUUID (generateUUID fun _ => 0) = true :=
  ⟨fun _ => by norm_num,
   (generateUUID_isValidUUID (fun _ => 0) (fun _ => by norm_num)).1⟩

/-! ## sketch-generator.cjs: the color codec `parseColor`

`parseColor` slices the hex payload into two-character windows and feeds each
to `parseInt(_, 16)`, so the embedding needs a faithful model of ECMAScript
`parseInt` with radix 16: skip leading whitespace, read an optional sign,
strip an optional `0x`/`0X` prefix, then take the longest prefix of
hexadecimal digits (NaN when that prefix is empty). -/

/-- Characters ECMAScript `parseInt` skips as leading whitespace
(WhiteSpace and LineTerminator code points). -/
def jsIsWhitespaceChar (c : Char) : Bool :=
  c == ' ' || c == '\t' || c == '\n' || c == '\r' ||
  c.toNat == 11 || c.toNat == 12 || c.toNat == 0xa0 || c.toNat == 0xfeff ||
  c.toNat == 0x1680 || (0x2000 ≤ c.toNat && c.toNat ≤ 0x200a) ||
  c.toNat == 0x2028 || c.toNat == 0x2029 ||
  c.toNat == 0x202f || c.toNat == 0x205f || c.toNat == 0x3000

/-- Value of one hexadecimal digit, in either case; `none` for non-digits.
The three ranges are `'0'..'9'` (48-57), `'a'..'f'` (97-102) and
`'A'..'F'` (65-70), stated on code points. -/
def hexDigitVal (c : Char) : Option Nat :=
  if 48 ≤ c.toNat ∧ c.toNat ≤ 57 then some (c.toNat - 48)
  else if 97 ≤ c.toNat ∧ c.toNat ≤ 102 then some (c.toNat - 87)
  else if 65 ≤ c.toNat ∧ c.toNat ≤ 70 then some (c.toNat - 55)
  else none

/-- Accumulate the longest prefix of hexadecimal digits. -/
def parseHexDigits : List Char → Nat → Nat
  | [], acc => acc
  | c :: rest, acc =>
    match hexDigitVal c with
    | some d => parseHexDigits rest (acc * 16 + d)
    | none => acc

/-- With radix 16, `parseInt` strips an optional leading `0x`/`0X`. -/
def stripHexPrefix : List Char → List Char
  | '0' :: 'x' :: rest => rest
  | '0' :: 'X' :: rest => rest
  | other => other

/-- After sign handling: strip an optional `0x`/`0X` prefix and read the
digit run; `none` models NaN (no digits at all). -/
def parseIntHexBody (cs : List Char) : Option Nat :=
  match stripHexPrefix cs with
  | c :: rest =>
    match hexDigitVal c with
    | some _ => some (parseHexDigits (c :: rest) 0)
    | none => none
  | [] => none

/-- ECMAScript `parseInt(s, 16)` on a character list; `none` models NaN. -/
def parseIntHexChars (cs : List Char) : Option Int :=
  match cs.dropWhile jsIsWhitespaceChar with
  | c :: rest =>
    if c = '-' then
      match parseIntHexBody rest with
      | some n => some (-(n : Int))
      | none => none
    else if c = '+' then
      match parseIntHexBody rest with
      | some n => some ((n : Int))
      | none => none
    else
      match parseIntHexBody (c :: rest) with
      | some n => some ((n : Int))
      | none => none
  | [] => none

/-- A Sketch color object: four numeric channels (the `_class: "color"` tag
is implicit in the type). -/
structure SketchColor where
  red : Rat
  green : Rat
  blue : Rat
  alpha : Rat
deriving DecidableEq

/-- The default black color returned for missing/non-string/non-hex input. -/
def defaultBlackColor : SketchColor := { red := 0, green := 0, blue := 0, alpha := 1 }

/-- One channel: `parseInt(slice, 16) / 255 || 0`. A NaN parse (modeled as
`none`) is falsy and collapses to 0; a zero quotient also collapses to 0,
which leaves the value unchanged, so both are the `none => 0` / division
branches below. -/
def parseColorChannel (slice : List Char) : Rat :=
  match parseIntHexChars slice with
  | some n => (n : Rat) / 255
  | none => 0

/-- Embeds `parseColor` (sketch-generator.cjs lines 425-439). The argument is
`some s` for a string input and `none` for any non-string input (the
`typeof colorStr !== 'string'` guard); the empty string is falsy and also
takes the default branch. `colorStr.startsWith('#')` is the head-character
test, and slicing `hex.substr(2k, 2)` is `drop (2k), take 2` on the
character list. -/
def parseColor (colorStr : Option String) : SketchColor :=
  match colorStr with
  | none => defaultBlackColor
  | some s =>
    if s == "" then defaultBlackColor
    else
      match s.data with
      | c :: hex =>
        if c = '#' then
          { red := parseColorChannel (hex.take 2)
            green := parseColorChannel ((hex.drop 2).take 2)
            blue := parseColorChannel ((hex.drop 4).take 2)
            alpha := 1 }
        else defaultBlackColor
      | [] => defaultBlackColor

/-! ### C7 support lemmas: channel bounds -/

theorem parseHexDigits_lt (cs : List Char) :
    ∀ acc, parseHexDigits cs acc < (acc + 1) * 16 ^ cs.length := by
  induction cs with
  | nil => intro acc; simpa [parseHexDigits] using Nat.lt_succ_self acc
  | cons c rest ih =>
    intro acc
    unfold parseHexDigits
    match hd : hexDigitVal c with
    | none =>
      simp only [hd]
      calc acc < acc + 1 := Nat.lt_succ_self acc
        _ ≤ (acc + 1) * 16 ^ (c :: rest).length :=
          Nat.le_mul_of_pos_right _ (Nat.pos_pow_of_pos _ (by omega))
    | some d =>
      simp only [hd]
      have hdle : d ≤ 15 := by
        unfold hexDigitVal at hd
        split_ifs at hd <;> simp only [Option.some.injEq] at hd <;> omega
      have := ih (acc * 16 + d)
      have hstep : (acc * 16 + d + 1) * 16 ^ rest.length ≤ (acc + 1) * 16 ^ (c :: rest).length := by
        have hmul : (acc * 16 + d + 1) ≤ (acc + 1) * 16 := by omega
        calc (acc * 16 + d + 1) * 16 ^ rest.length
            ≤ (acc + 1) * 16 * 16 ^ rest.length := Nat.mul_le_mul_right _ hmul
          _ = (acc + 1) * 16 ^ (c :: rest).length := by
              rw [List.length_cons, pow_succ]; ring
      omega

theorem stripHexPrefix_length_le (cs : List Char) :
    (stripHexPrefix cs).length ≤ cs.length := by
  unfold stripHexPrefix
  split <;> simp <;> omega

theorem dropWhileLengthLe (p : Char → Bool) (l : List Char) :
    (l.dropWhile p).length ≤ l.length := by
  induction l with
  | nil => simp
  | cons a l ih =>
    rw [List.dropWhile_cons]
    split <;> simp <;> omega

theorem parseIntHexBody_lt (cs : List Char) (n : Nat)
    (hn : parseIntHexBody cs = some n) : n < 16 ^ cs.length := by
  unfold parseIntHexBody at hn
  have hstrip := stripHexPrefix_length_le cs
  split at hn
  next c rest heq =>
    match hd : hexDigitVal c with
    | none => rw [hd] at hn; simp at hn
    | some d =>
      rw [hd] at hn
      simp only [Option.some.injEq] at hn
      have hlt := parseHexDigits_lt (c :: rest) 0
      rw [heq] at hstrip
      have hpow : (16 : Nat) ^ (c :: rest).length ≤ 16 ^ cs.length :=
        Nat.pow_le_pow_right (by omega) hstrip
      omega
  next heq => simp at hn

theorem parseIntHexChars_bounds (cs : List Char) (hlen : cs.length ≤ 2) (n : Int)
    (hn : parseIntHexChars cs = some n) : -15 ≤ n ∧ n ≤ 255 := by
  have hlen1 : (cs.dropWhile jsIsWhitespaceChar).length ≤ 2 :=
    le_trans (dropWhileLengthLe _ _) hlen
  unfold parseIntHexChars at hn
  split at hn
  next c rest heq =>
    rw [heq] at hlen1
    have hr : rest.length ≤ 1 := by simp at hlen1; omega
    have h16 : (16 : Nat) ^ rest.length ≤ 16 := by
      calc (16 : Nat) ^ rest.length ≤ 16 ^ 1 := Nat.pow_le_pow_right (by omega) hr
        _ = 16 := by norm_num
    split_ifs at hn
    · split at hn
      next m hb =>
        simp only [Option.some.injEq] at hn
        have hm := parseIntHexBody_lt rest m hb
        omega
      next hb => exact Option.noConfusion hn
    · split at hn
      next m hb =>
        simp only [Option.some.injEq] at hn
        have hm := parseIntHexBody_lt rest m hb
        omega
      next hb => exact Option.noConfusion hn
    · split at hn
      next m hb =>
        simp only [Option.some.injEq] at hn
        have hm := parseIntHexBody_lt (c :: rest) m hb
        have hcs : (c :: rest).length ≤ 2 := by simpa using hlen1
        have hpow : (16 : Nat) ^ (c :: rest).length ≤ 16 ^ 2 :=
          Nat.pow_le_pow_right (by omega) hcs
        have h256 : (16 : Nat) ^ 2 = 256 := by norm_num
        omega
      next hb => exact Option.noConfusion hn
  next heq => exact Option.noConfusion hn

theorem parseColorChannel_eq_of (slice : List Char) (n : Int)
    (h : parseIntHexChars slice = some n) : parseColorChannel slice = (n : Rat) / 255 := by
  unfold parseColorChannel
  rw [h]

theorem parseColorChannel_bounds (slice : List Char) (hlen : slice.length ≤ 2) :
    -15 / 255 ≤ parseColorChannel slice ∧ parseColorChannel slice ≤ 1 := by
  unfold parseColorChannel
  match hp : parseIntHexChars slice with
  | none => norm_num
  | some n =>
    have hb := parseIntHexChars_bounds slice hlen n hp
    constructor
    · rw [div_le_div_iff_of_pos_right (by norm_num : (0:Rat) < 255)]
      exact_mod_cast hb.1
    · rw [div_le_one (by norm_num : (0:Rat) < 255)]
      exact_mod_cast hb.2

/-- When the input is a nonempty string starting with `'#'`, `parseColor`
slices the tail into two-character channel windows. -/
theorem parseColor_hash (s : String) (hex : List Char)
    (hdat : s.data = '#' :: hex) :
    parseColor (some s) =
      { red := parseColorChannel (hex.take 2)
        green := parseColorChannel ((hex.drop 2).take 2)
        blue := parseColorChannel ((hex.drop 4).take 2)
        alpha := 1 } := by
  have hne : (s == "") = false := by
    apply beq_eq_false_iff_ne.mpr
    intro h
    rw [h] at hdat
    simp at hdat
  have hred : parseColor (some s) =
      (if s == "" then defaultBlackColor
       else
        match s.data with
        | c :: hex =>
          if c = '#' then
            { red := parseColorChannel (hex.take 2)
              green := parseColorChannel ((hex.drop 2).take 2)
              blue := parseColorChannel ((hex.drop 4).take 2)
              alpha := 1 }
          else defaultBlackColor
        | [] => defaultBlackColor) := rfl
  rw [hred, hne, hdat]
  simp

/-- `parseColor` on every input other than a nonempty `'#'`-headed string
returns the default black. -/
theorem parseColor_default (v : Option String)
    (h : ∀ s hex, v = some s → s.data ≠ '#' :: hex) :
    parseColor v = defaultBlackColor := by
  match v with
  | none => rfl
  | some s =>
    have hred : parseColor (some s) =
        (if s == "" then defaultBlackColor
         else
          match s.data with
          | c :: hex =>
            if c = '#' then
              { red := parseColorChannel (hex.take 2)
                green := parseColorChannel ((hex.drop 2).take 2)
                blue := parseColorChannel ((hex.drop 4).take 2)
                alpha := 1 }
            else defaultBlackColor
          | [] => defaultBlackColor) := rfl
    rw [hred]
    split_ifs with hs
    · rfl
    · match hdat : s.data with
      | [] => simp
      | c :: hex =>
        have hc : ¬c = '#' := by
          intro hceq
          exact h s hex rfl (by rw [hdat, hceq])
      -- reduce the match on the cons cell, then take the else branch
        simp [hc]

theorem parseColor_FF0000 :
    parseColor (some "#FF0000") = { red := 1, green := 0, blue := 0, alpha := 1 } := by
  rw [parseColor_hash "#FF0000" "FF0000".data rfl,
    parseColorChannel_eq_of ("FF0000".data.take 2) 255 rfl,
    parseColorChannel_eq_of (("FF0000".data.drop 2).take 2) 0 rfl,
    parseColorChannel_eq_of (("FF0000".data.drop 4).take 2) 0 rfl]
  norm_num

/-- C7 (amended): every channel of every `parseColor` result lies in the
closed interval `[-15/255, 1]` (not `[0, 1]`: a two-character slice of the
form `-h` parses to a negative value, see `parseColor_negative_channel`),
the alpha channel is always 1, and `parseColor "#FF0000"` is pure red. -/
theorem parseColor_channel_bounds (v : Option String) :
    (-15 / 255 ≤ (parseColor v).red ∧ (parseColor v).red ≤ 1) ∧
    (-15 / 255 ≤ (parseColor v).green ∧ (parseColor v).green ≤ 1) ∧
    (-15 / 255 ≤ (parseColor v).blue ∧ (parseColor v).blue ≤ 1) ∧
    (parseColor v).alpha = 1 ∧
    parseColor (some "#FF0000") = { red := 1, green := 0, blue := 0, alpha := 1 } := by
  have hdef : (-15 / 255 ≤ defaultBlackColor.red ∧ defaultBlackColor.red ≤ 1) ∧
      (-15 / 255 ≤ defaultBlackColor.green ∧ defaultBlackColor.green ≤ 1) ∧
      (-15 / 255 ≤ defaultBlackColor.blue ∧ defaultBlackColor.blue ≤ 1) ∧
      defaultBlackColor.alpha = 1 := by norm_num [defaultBlackColor]
  by_cases hform : ∃ s hex, v = some s ∧ s.data = '#' :: hex
  · obtain ⟨s, hex, hv, hdat⟩ := hform
    rw [hv, parseColor_hash s hex hdat]
    refine ⟨?_, ?_, ?_, by simp, parseColor_FF0000⟩
    · exact parseColorChannel_bounds (hex.take 2) (by rw [List.length_take]; omega)
    · exact parseColorChannel_bounds ((hex.drop 2).take 2) (by rw [List.length_take]; omega)
    · exact parseColorChannel_bounds ((hex.drop 4).take 2) (by rw [List.length_take]; omega)
  · rw [parseColor_default v (by
      intro s hex hv hdat
      exact hform ⟨s, hex, hv, hdat⟩)]
    exact ⟨hdef.1, hdef.2.1, hdef.2.2.1, hdef.2.2.2, parseColor_FF0000⟩

/-- Counterexample for C7 as stated: the input string `"#-F0000"` produces a
red channel of `-15/255`, which is strictly below 0, so not every channel of
every `parseColor` result lies in `[0, 1]`. -/
theorem parseColor_negative_channel :
    (parseColor (some "#-F0000")).red = -15 / 255 ∧ (parseColor (some "#-F0000")).red < 0 := by
  have h := parseColor_hash "#-F0000" "-F0000".data rfl
  have hch : parseColorChannel ("-F0000".data.take 2) = ((-15 : Int) : Rat) / 255 :=
    parseColorChannel_eq_of ("-F0000".data.take 2) (-15) rfl
  rw [h]
  constructor
  · show parseColorChannel ("-F0000".data.take 2) = -15 / 255
    rw [hch]; norm_num
  · show parseColorChannel ("-F0000".data.take 2) < 0
    rw [hch]; norm_num

/-! ## sketch-generator.cjs: node constructors

The constructors are pure once the identifier stream is made explicit: every
call of `generateUUID()` inside a constructor is modeled by drawing from an
injected stream `ids : Nat -> String`, with callees receiving a shifted
stream. No claim depends on the drawn values. -/

/-- JavaScript `opt || dflt` for an optional number: `0` (and a missing
value) is falsy and selects the default. -/
def jsNumOr (o : Option Rat) (dflt : Rat) : Rat :=
  match o with
  | some q => if q = 0 then dflt else q
  | none => dflt

/-- JavaScript `opt || dflt` for an optional string: the empty string (and a
missing value) is falsy and selects the default. -/
def jsStrOr (o : Option String) (dflt : String) : String :=
  match o with
  | some s => if s = "" then dflt else s
  | none => dflt

/-- Truthiness of an optional string option. -/
def jsStrTruthy (o : Option String) : Bool :=
  match o with
  | some s => !(s == "")
  | none => false

/-- Truthiness of an optional numeric option. -/
def jsNumTruthy (o : Option Rat) : Bool :=
  match o with
  | some q => !(q == 0)
  | none => false

/-- JavaScript `Math.round`: round half toward positive infinity. -/
def jsRound (q : Rat) : Int := ⌊q + 1 / 2⌋

/-- The caller-supplied frame `{x, y, width, height}`. -/
structure Frame where
  x : Rat
  y : Rat
  width : Rat
  height : Rat
deriving DecidableEq

/-- The defaulted `exportOptions` block every layer carries. -/
structure SketchExportOptions where
  exportFormats : List String
  includedLayerIds : List String
  layerOptions : Rat
  shouldTrim : Bool
deriving DecidableEq

/-- The `frame` sub-object of a layer (`_class: "rect"`). -/
structure FrameRect where
  x : Rat
  y : Rat
  width : Rat
  height : Rat
  constrainProportions : Bool
deriving DecidableEq

/-- Options object accepted by `createLayerBase`. -/
structure LayerBaseOptions where
  constrainProportions : Option Bool := none
deriving DecidableEq

/-- The shared base fields of every layer (abstract-layer schema); the
`_class` tag is carried in `classTag`. -/
structure LayerBase where
  classTag : String
  do_objectID : String
  frame : FrameRect
  resizingConstraint : Rat
  resizingType : Rat
  rotation : Rat
  shouldBreakMaskChain : Bool
  booleanOperation : Rat
  exportOptions : SketchExportOptions
  isFixedToViewport : Bool
  isFlippedHorizontal : Bool
  isFlippedVertical : Bool
  isLocked : Bool
  isVisible : Bool
  isTemplate : Bool
  layerListExpandedType : Rat
  nameIsFixed : Bool
deriving DecidableEq

/-- `RESIZING_CONSTRAINTS.NONE` (sketch-generator.cjs line 15). -/
def RESIZING_CONSTRAINTS_NONE : Rat := 63

/-- Embeds `createLayerBase` (sketch-generator.cjs lines 59-92). The source
body is a single object literal: it performs no geometry validation of any
kind and never throws, returning the defaulted base fields for every frame,
negative dimensions included. `options.constrainProportions || false` is
truthiness on the optional flag. -/
def createLayerBase (ids : Nat → String) (classType : String) (frame : Frame)
    (options : LayerBaseOptions) : LayerBase :=
  { classTag := classType
    do_objectID := ids 0
    frame :=
      { x := frame.x
        y := frame.y
        width := frame.width
        height := frame.height
        constrainProportions := options.constrainProportions == some true }
    resizingConstraint := RESIZING_CONSTRAINTS_NONE
    resizingType := 0
    rotation := 0
    shouldBreakMaskChain := false
    booleanOperation := -1
    exportOptions :=
      { exportFormats := []
        includedLayerIds := []
        layerOptions := 0
        shouldTrim := false }
    isFixedToViewport := false
    isFlippedHorizontal := false
    isFlippedVertical := false
    isLocked := false
    isVisible := true
    isTemplate := false
    layerListExpandedType := 0
    nameIsFixed := false }

/-! ### Style model (`createStyle`) -/

/-- The always-present disabled `blur` block. -/
structure SketchBlur where
  isEnabled : Bool
  center : String
  saturation : Rat
  blurType : Rat
  motionAngle : Rat
  radius : Rat
deriving DecidableEq

/-- `graphicsContextSettings`. -/
structure SketchContextSettings where
  blendMode : Rat
  opacity : Rat
deriving DecidableEq

/-- The always-present disabled `colorControls` block. -/
structure SketchColorControls where
  isEnabled : Bool
  brightness : Rat
  contrast : Rat
  hue : Rat
  saturation : Rat
deriving DecidableEq

/-- The always-present `borderOptions` block. -/
structure SketchBorderOptions where
  isEnabled : Bool
  lineCapStyle : Rat
  lineJoinStyle : Rat
  dashPattern : List Rat
deriving DecidableEq

/-- The constant gradient each fill carries (`from`/`to` are point strings;
named `fromPoint`/`toPoint` because `from` is reserved in Lean). -/
structure SketchGradient where
  elipseLength : Rat
  fromPoint : String
  toPoint : String
  gradientType : Rat
  stops : List Rat
deriving DecidableEq

/-- A `fill` entry. -/
structure SketchFill where
  isEnabled : Bool
  color : SketchColor
  fillType : Rat
  noiseIndex : Rat
  noiseIntensity : Rat
  patternFillType : Rat
  patternTileScale : Rat
  gradient : SketchGradient
  contextSettings : SketchContextSettings
deriving DecidableEq

/-- A `border` entry. -/
structure SketchBorder where
  isEnabled : Bool
  color : SketchColor
  fillType : Rat
  position : Rat
  thickness : Rat
  contextSettings : SketchContextSettings
deriving DecidableEq

/-- A `shadow` entry. -/
structure SketchShadow where
  color : SketchColor
  offsetX : Rat
  offsetY : Rat
  blurRadius : Rat
  spread : Rat
deriving DecidableEq

/-- A `fontDescriptor`: the `attributes.name` / `attributes.size` pair. -/
structure FontDescriptor where
  name : String
  size : Rat
deriving DecidableEq

/-- The `paragraphStyle` inside `style.textStyle.encodeAttributes`. -/
structure ParagraphStyleEncode where
  alignment : Rat
  maximumLineHeight : Rat
  minimumLineHeight : Rat
  paragraphSpacing : Rat
deriving DecidableEq

/-- `style.textStyle.encodeAttributes`. -/
structure TextStyleEncodeAttributes where
  font : FontDescriptor
  paragraphStyle : ParagraphStyleEncode
  textStyleVerticalAlignmentKey : Rat
  color : SketchColor
deriving DecidableEq

/-- The optional `style.textStyle` block. -/
structure SketchTextStyle where
  verticalAlignment : Rat
  encodeAttributes : TextStyleEncodeAttributes
deriving DecidableEq

/-- A `style` object; `textStyle` is `none` when the source leaves the field
absent. -/
structure SketchStyle where
  do_objectID : String
  blur : SketchBlur
  borders : List SketchBorder
  fills : List SketchFill
  shadows : List SketchShadow
  innerShadows : List SketchShadow
  contextSettings : SketchContextSettings
  startMarkerType : Rat
  endMarkerType : Rat
  miterLimit : Rat
  windingRule : Rat
  colorControls : SketchColorControls
  borderOptions : SketchBorderOptions
  textStyle : Option SketchTextStyle
deriving DecidableEq

/-- `options.shadow` sub-object. -/
structure ShadowOptions where
  offsetY : Option Rat := none
  blur : Option Rat := none
deriving DecidableEq

/-- The options record accepted by `createStyle` (every field optional; the
same record doubles as the `style` spec of `createRectangle`). `color`
carries an already-built color object (as passed by `createText`). -/
structure StyleOptions where
  fills : Option (List String) := none
  borderColor : Option String := none
  borderPosition : Option Rat := none
  borderWidth : Option Rat := none
  shadow : Option ShadowOptions := none
  fontFamily : Option String := none
  fontSize : Option Rat := none
  displayFontSize : Option Rat := none
  color : Option SketchColor := none
  alignment : Option Rat := none
  verticalAlignment : Option Rat := none
  cornerRadius : Option Rat := none
  constrainProportions : Option Bool := none
deriving DecidableEq

/-- One mapped `fill` entry (sketch-generator.cjs lines 253-271). -/
def mkFillEntry (c : String) : SketchFill :=
  { isEnabled := true
    color := parseColor (some c)
    fillType := 0
    noiseIndex := 0
    noiseIntensity := 0
    patternFillType := 1
    patternTileScale := 1
    gradient :=
      { elipseLength := 0
        fromPoint := "\x7b0.500000, 0.000000\x7d"
        toPoint := "\x7b0.500000, 1.000000\x7d"
        gradientType := 0
        stops := [] }
    contextSettings := { blendMode := 0, opacity := 1 } }

/-- Embeds `createStyle` (sketch-generator.cjs lines 213-331). The
`textStyle` block is attached exactly when
`options.fontFamily || options.displayFontSize || options.color` is truthy
(the source condition at line 299 — note it does not test `alignment` or
`fontSize`). -/
def createStyle (ids : Nat → String) (options : StyleOptions) : SketchStyle :=
  { do_objectID := ids 0
    blur :=
      { isEnabled := false
        center := "\x7b0.500000, 0.500000\x7d"
        saturation := 1
        blurType := 0
        motionAngle := 0
        radius := 10 }
    borders :=
      if jsStrTruthy options.borderColor then
        [{ isEnabled := true
           color := parseColor options.borderColor
           fillType := 0
           position := jsNumOr options.borderPosition 1
           thickness := jsNumOr options.borderWidth 1
           contextSettings := { blendMode := 0, opacity := 1 } }]
      else []
    fills :=
      match options.fills with
      | some cs => if 0 < cs.length then cs.map mkFillEntry else []
      | none => []
    shadows :=
      match options.shadow with
      | some sh =>
        [{ color := { red := 0, green := 0, blue := 0, alpha := 15 / 100 }
           offsetX := 0
           offsetY := jsNumOr sh.offsetY 4
           blurRadius := jsNumOr sh.blur 12
           spread := 0 }]
      | none => []
    innerShadows := []
    contextSettings := { blendMode := 0, opacity := 1 }
    startMarkerType := 0
    endMarkerType := 0
    miterLimit := 10
    windingRule := 1
    colorControls :=
      { isEnabled := false
        brightness := 0
        contrast := 1
        hue := 0
        saturation := 1 }
    borderOptions :=
      { isEnabled := true
        lineCapStyle := 0
        lineJoinStyle := 0
        dashPattern := [] }
    textStyle :=
      if jsStrTruthy options.fontFamily || jsNumTruthy options.displayFontSize
          || options.color.isSome then
        let fontSize := jsNumOr options.displayFontSize (jsNumOr options.fontSize 16)
        let fontFamily := jsStrOr options.fontFamily "Roboto-Regular"
        let alignment := jsNumOr options.alignment 0
        let verticalAlignment := (options.verticalAlignment).getD 0
        let textColor := (options.color).getD { red := 0, green := 0, blue := 0, alpha := 1 }
        some
          { verticalAlignment := verticalAlignment
            encodeAttributes :=
              { font := { name := fontFamily, size := fontSize }
                paragraphStyle :=
                  { alignment := alignment
                    maximumLineHeight := fontSize * (12 / 10)
                    minimumLineHeight := fontSize * (12 / 10)
                    paragraphSpacing := 0 }
                textStyleVerticalAlignmentKey := verticalAlignment
                color := textColor } }
      else none }

/-! ### Rectangle layers (`createRectangle`) -/

/-- A `curvePoint` entry. -/
structure CurvePointNode where
  cornerRadius : Rat
  curveFrom : String
  curveMode : Rat
  curveTo : String
  hasCurveFrom : Bool
  hasCurveTo : Bool
  point : String
deriving DecidableEq

/-- One corner point: the source repeats the same coordinate string for
`curveFrom`, `curveTo` and `point`, and the same radius for all corners. -/
def mkCurvePoint (radius : Rat) (pt : String) : CurvePointNode :=
  { cornerRadius := radius
    curveFrom := pt
    curveMode := 1
    curveTo := pt
    hasCurveFrom := false
    hasCurveTo := false
    point := pt }

/-- A rectangle layer: base fields plus the rectangle-specific ones. -/
structure RectangleLayer where
  base : LayerBase
  name : String
  edited : Bool
  isClosed : Bool
  pointRadiusBehaviour : Rat
  hasClippingMask : Bool
  clippingMaskMode : Rat
  fixedRadius : Rat
  hasConvertedToNewRoundCorners : Bool
  needsConvertionToNewRoundCorners : Bool
  points : List CurvePointNode
  style : SketchStyle
deriving DecidableEq

/-- Embeds `createRectangle` (sketch-generator.cjs lines 98-121):
`cornerRadius = style.cornerRadius || 0`, four corner points each carrying
that radius, and a style built from the same spec. -/
def createRectangle (ids : Nat → String) (frame : Frame) (style : StyleOptions)
    (name : String) : RectangleLayer :=
  let cornerRadius := jsNumOr style.cornerRadius 0
  { base := createLayerBase ids "rectangle" frame
      { constrainProportions := style.constrainProportions }
    name := name
    edited := false
    isClosed := true
    pointRadiusBehaviour := 1
    hasClippingMask := false
    clippingMaskMode := 0
    fixedRadius := cornerRadius
    hasConvertedToNewRoundCorners := true
    needsConvertionToNewRoundCorners := false
    points :=
      [mkCurvePoint cornerRadius "\x7b0, 0\x7d",
       mkCurvePoint cornerRadius "\x7b1, 0\x7d",
       mkCurvePoint cornerRadius "\x7b1, 1\x7d",
       mkCurvePoint cornerRadius "\x7b0, 1\x7d"]
    style := createStyle (fun n => ids (n + 1)) style }

/-! ### Text layers (`createText`) -/

/-- The Chinese-font substitution map `CHINESE_FONT_MAP`
(sketch-generator.cjs lines 28-33). -/
def CHINESE_FONT_MAP : List (String × String) :=
  [("Roboto-Bold", "PingFangSC-Regular"),
   ("Roboto-Regular", "PingFangSC-Regular"),
   ("Roboto-Medium", "PingFangSC-Regular"),
   ("Roboto-Light", "PingFangSC-Regular")]

/-- Lookup in the substitution map (JavaScript property access on the map
object, `undefined` when absent). -/
def chineseFontLookup : List (String × String) → String → Option String
  | [], _ => none
  | (k, v) :: rest, key => if k == key then some v else chineseFontLookup rest key

/-- `CHINESE_FONT_MAP[fontFamily] || 'PingFangSC-Regular'` (line 144). -/
def chineseFontFor (family : String) : String :=
  jsStrOr (chineseFontLookup CHINESE_FONT_MAP family) "PingFangSC-Regular"

/-- The CJK test `/[一-龥]/.test(text)` (line 138): some character
of the content lies in the CJK Unified Ideographs range U+4E00-U+9FA5. -/
def hasChineseChar (text : String) : Bool :=
  text.data.any fun c => 0x4e00 ≤ c.toNat && c.toNat ≤ 0x9fa5

/-- `text.length` in JavaScript counts UTF-16 code units: astral characters
count twice. -/
def utf16Length (s : String) : Nat :=
  s.data.foldl (fun n c => n + if 0x10000 ≤ c.toNat then 2 else 1) 0

/-- The style spec accepted by `createText` (`color` is a color string here,
parsed inside `createText`; `alignment` is the keyword string). -/
structure TextSpec where
  color : Option String := none
  fontSize : Option Rat := none
  fontFamily : Option String := none
  alignment : Option String := none
deriving DecidableEq

/-- The `paragraphStyle` of an attributed-string attribute (two more fields
than the style-level one). -/
structure ParagraphStyleAttr where
  alignment : Rat
  maximumLineHeight : Rat
  minimumLineHeight : Rat
  paragraphSpacing : Rat
  lineHeightMultiple : Rat
  allowsDefaultTighteningForTruncation : Rat
deriving DecidableEq

/-- One `stringAttribute` of an attributed string. -/
structure StringAttribute where
  location : Rat
  length : Rat
  font : FontDescriptor
  kerning : Rat
  color : SketchColor
  paragraphStyle : ParagraphStyleAttr
  textStyleVerticalAlignmentKey : Rat
  textTransform : Rat
  underlineStyle : Rat
  strikethroughStyle : Rat
deriving DecidableEq

/-- An `attributedString`. -/
structure AttributedString where
  string : String
  attributes : List StringAttribute
deriving DecidableEq

/-- A text layer. -/
structure TextLayer where
  base : LayerBase
  name : String
  attributedString : AttributedString
  textBehaviour : Rat
  glyphBounds : String
  lineSpacingBehaviour : Rat
  automaticallyDrawOnUnderlyingPath : Bool
  dontSynchroniseWithSymbol : Bool
  style : SketchStyle
deriving DecidableEq

/-- Embeds `createText` (sketch-generator.cjs lines 127-207). The resolved
request is `fontSize = style.fontSize || 16`,
`fontFamily = style.fontFamily || 'Roboto-Regular'`; when the content
contains a CJK ideograph the style-level block receives the substituted
family and `Math.round(fontSize * 1.2)`, while the attributed string always
carries the resolved request itself. -/
def createText (ids : Nat → String) (text : String) (frame : Frame)
    (style : TextSpec) : TextLayer :=
  let base := createLayerBase ids "text" frame {}
  let name := jsStrOr (some ⟨text.data.take 30⟩) "Text"
  let color :=
    match style.color with
    | some s => if s == "" then { red := 0, green := 0, blue := 0, alpha := 1 } else parseColor (some s)
    | none => { red := 0, green := 0, blue := 0, alpha := 1 }
  let fontSize := jsNumOr style.fontSize 16
  let fontFamily := jsStrOr style.fontFamily "Roboto-Regular"
  let alignment : Rat :=
    if style.alignment == some "center" then 2
    else if style.alignment == some "right" then 1
    else 0
  let hasChinese := hasChineseChar text
  let displayFontFamily := if hasChinese then chineseFontFor fontFamily else fontFamily
  let displayFontSize : Rat :=
    if hasChinese then (jsRound (fontSize * (12 / 10)) : Int) else fontSize
  { base := base
    name := name
    attributedString :=
      { string := text
        attributes :=
          [{ location := 0
             length := (utf16Length text : Rat)
             font := { name := fontFamily, size := fontSize }
             kerning := 0
             color := color
             paragraphStyle :=
               { alignment := alignment
                 maximumLineHeight := fontSize * (12 / 10)
                 minimumLineHeight := fontSize * (12 / 10)
                 paragraphSpacing := 0
                 lineHeightMultiple := 12 / 10
                 allowsDefaultTighteningForTruncation := 0 }
             textStyleVerticalAlignmentKey := 2
             textTransform := 0
             underlineStyle := 0
             strikethroughStyle := 0 }] }
    textBehaviour := 0
    glyphBounds := ""
    lineSpacingBehaviour := 1
    automaticallyDrawOnUnderlyingPath := false
    dontSynchroniseWithSymbol := true
    style :=
      createStyle (fun n => ids (n + 1))
        { fills := some []
          color := some color
          fontSize := some fontSize
          fontFamily := some displayFontFamily
          displayFontSize := some displayFontSize
          alignment := some alignment
          verticalAlignment := some 0 } }

/-! ### C6: `createLayerBase` and geometry -/

/-- Counterexample for C6 as stated: `createLayerBase` called with the
negative-dimension frame `(0, 0, -5, -7)` does not fail — the source body is
a single object literal with no validation and no `throw` (and no
`InvalidGeometry` error exists anywhere in the repository) — it returns an
ordinary layer node carrying the negative dimensions. -/
theorem createLayerBase_accepts_negative_dims :
    (createLayerBase (fun _ => "") "rectangle" { x := 0, y := 0, width := -5, height := -7 }
      {}).frame.width = -5 ∧
    (createLayerBase (fun _ => "") "rectangle" { x := 0, y := 0, width := -5, height := -7 }
      {}).frame.height = -7 ∧
    (createLayerBase (fun _ => "") "rectangle" { x := 0, y := 0, width := -5, height := -7 }
      {}).isVisible = true :=
  ⟨rfl, rfl, rfl⟩

/-- C6 (amended): `createLayerBase` performs no geometry validation at all —
for every frame, negative dimensions included, it returns a layer node whose
frame copies the caller's values unchanged and whose base fields carry the
documented defaults (`visible`, unlocked, rotation 0, free resizing
constraint, empty-but-present export options). -/
theorem createLayerBase_defaults (ids : Nat → String) (classType : String)
    (frame : Frame) (options : LayerBaseOptions) :
    (createLayerBase ids classType frame options).classTag = classType ∧
    (createLayerBase ids classType frame options).frame.x = frame.x ∧
    (createLayerBase ids classType frame options).frame.y = frame.y ∧
    (createLayerBase ids classType frame options).frame.width = frame.width ∧
    (createLayerBase ids classType frame options).frame.height = frame.height ∧
    (createLayerBase ids classType frame options).isVisible = true ∧
    (createLayerBase ids classType frame options).isLocked = false ∧
    (createLayerBase ids classType frame options).rotation = 0 ∧
    (createLayerBase ids classType frame options).resizingConstraint = RESIZING_CONSTRAINTS_NONE ∧
    (createLayerBase ids classType frame options).exportOptions =
      { exportFormats := [], includedLayerIds := [], layerOptions := 0, shouldTrim := false } :=
  ⟨rfl, rfl, rfl, rfl, rfl, rfl, rfl, rfl, rfl, rfl⟩

/-! ### C8: `createRectangle` corner points -/

/-- C8: every rectangle produced by `createRectangle` has exactly 4 corner
points, each point's `cornerRadius` is the configured corner radius (the
style spec's `cornerRadius`, defaulting to 0) — one value replicated across
all four corners — and `fixedRadius` carries the same value. -/
theorem createRectangle_points_spec (ids : Nat → String) (frame : Frame)
    (spec : StyleOptions) (name : String) :
    (createRectangle ids frame spec name).points.length = 4 ∧
    ((createRectangle ids frame spec name).points.map fun p => p.cornerRadius) =
      List.replicate 4 (jsNumOr spec.cornerRadius 0) ∧
    (createRectangle ids frame spec name).fixedRadius = jsNumOr spec.cornerRadius 0 :=
  ⟨rfl, rfl, rfl⟩

/-! ### C9: `createStyle` and the text-style block -/

/-- C9 (amended): `createStyle` attaches a `textStyle` block exactly when
`fontFamily`, `displayFontSize` or `color` is truthy in the options — the
source condition does not test the `alignment` or `fontSize` options, so
supplying only those produces a style without `textStyle`
(see `createStyle_alignment_only_no_textStyle`). -/
theorem createStyle_textStyle_iff (ids : Nat → String) (opts : StyleOptions) :
    (createStyle ids opts).textStyle.isSome =
      (jsStrTruthy opts.fontFamily || jsNumTruthy opts.displayFontSize
        || opts.color.isSome) := by
  rcases hcond : jsStrTruthy opts.fontFamily || jsNumTruthy opts.displayFontSize
      || opts.color.isSome with _ | _
  · simp [createStyle, hcond]
  · simp [createStyle, hcond]

/-- Counterexample for C9 as stated: supplying only the alignment option (or
only the font-size option) yields a style with no `textStyle` block, though
the claim requires one whenever a font, color or alignment option is
supplied. -/
theorem createStyle_alignment_only_no_textStyle :
    (createStyle (fun _ => "") { alignment := some 2 }).textStyle = none ∧
    (createStyle (fun _ => "") { fontSize := some 18 }).textStyle = none :=
  ⟨rfl, rfl⟩

/-! ### C1: the dual font encoding of `createText` -/

theorem chineseFontFor_eq (family : String) :
    chineseFontFor family = "PingFangSC-Regular" := by
  unfold chineseFontFor CHINESE_FONT_MAP
  simp only [chineseFontLookup]
  split_ifs <;> rfl

theorem jsStrOr_ne_empty (o : Option String) (dflt : String) (h : dflt ≠ "") :
    jsStrOr o dflt ≠ "" := by
  rcases o with _ | s
  · simpa [jsStrOr] using h
  · simp only [jsStrOr]
    split_ifs with hs
    · exact h
    · exact hs

theorem jsNumOr_ne_zero (o : Option Rat) (dflt : Rat) (h : dflt ≠ 0) :
    jsNumOr o dflt ≠ 0 := by
  rcases o with _ | q
  · simpa [jsNumOr] using h
  · simp only [jsNumOr]
    split_ifs with hq
    · exact h
    · exact hq

/-- C1 (amended): for text whose content contains a CJK ideograph, the
style-level `textStyle` font family is the substitution-map image of the
resolved requested family when that family is in the map and the fixed
fallback `PingFangSC-Regular` otherwise (so it can coincide with the
attribute-level family, e.g. when the request already is
`PingFangSC-Regular`); the style-level size is `round(size * 1.2)` unless
that rounds to 0 (in which case the falsy value falls back to the requested
size); the attribute-level font always carries the resolved requested family
and size. For content with no CJK characters both levels carry the resolved
request unchanged. -/
theorem createText_dual_font (ids : Nat → String) (text : String) (frame : Frame)
    (spec : TextSpec) :
    ((createText ids text frame spec).attributedString.attributes.map fun a => a.font) =
      [{ name := jsStrOr spec.fontFamily "Roboto-Regular"
         size := jsNumOr spec.fontSize 16 }] ∧
    (hasChineseChar text = true →
      ((createText ids text frame spec).style.textStyle.map
          fun ts => ts.encodeAttributes.font.name) =
        some (chineseFontFor (jsStrOr spec.fontFamily "Roboto-Regular")) ∧
      ((createText ids text frame spec).style.textStyle.map
          fun ts => ts.encodeAttributes.font.size) =
        some (if ((jsRound ((jsNumOr spec.fontSize 16) * (12 / 10)) : Int) : Rat) = 0
              then jsNumOr spec.fontSize 16
              else ((jsRound ((jsNumOr spec.fontSize 16) * (12 / 10)) : Int) : Rat))) ∧
    (hasChineseChar text = false →
      ((createText ids text frame spec).style.textStyle.map
          fun ts => ts.encodeAttributes.font.name) =
        some (jsStrOr spec.fontFamily "Roboto-Regular") ∧
      ((createText ids text frame spec).style.textStyle.map
          fun ts => ts.encodeAttributes.font.size) =
        some (jsNumOr spec.fontSize 16)) := by
  have hff : jsStrOr spec.fontFamily "Roboto-Regular" ≠ "" :=
    jsStrOr_ne_empty _ _ (by decide)
  have hfs : jsNumOr spec.fontSize 16 ≠ 0 :=
    jsNumOr_ne_zero _ _ (by norm_num)
  have hff2 : (match spec.fontFamily with
      | some s => if s = "" then "Roboto-Regular" else s
      | none => "Roboto-Regular") ≠ "" := by simpa [jsStrOr] using hff
  have hfs2 : (match spec.fontSize with
      | some q => if q = 0 then 16 else q
      | none => (16 : Rat)) ≠ 0 := by simpa [jsNumOr] using hfs
  refine ⟨rfl, ?_, ?_⟩
  · intro hcn
    constructor
    · simp [createText, createStyle, hcn, chineseFontFor_eq, jsStrTruthy, jsStrOr]
    · simp only [createText, createStyle, hcn, if_true]
      simp [jsNumOr, jsStrTruthy, hfs]
      split_ifs <;> simp [hfs2]
  · intro hcn
    constructor
    · simp [createText, createStyle, hcn, jsStrTruthy, jsStrOr, hff2]
    · simp only [createText, createStyle, hcn]
      simp [jsNumOr, hfs2]

/-- Counterexample for C1 as stated: for CJK content with the requested
family `PingFangSC-Regular` (not a key of the substitution map), the
style-level family is the fixed fallback `PingFangSC-Regular` — identical to
the attribute-level family, contradicting the claim that the style-level
family is the substitution-map image of the request and differs from the
attribute-level family. -/
theorem createText_cjk_family_coincide :
    hasChineseChar "中" = true ∧
    ((createText (fun _ => "") "中" { x := 0, y := 0, width := 100, height := 20 }
        { fontFamily := some "PingFangSC-Regular", fontSize := some 16 }).style.textStyle.map
      fun ts => ts.encodeAttributes.font.name) = some "PingFangSC-Regular" ∧
    ((createText (fun _ => "") "中" { x := 0, y := 0, width := 100, height := 20 }
        { fontFamily := some "PingFangSC-Regular", fontSize := some 16
          }).attributedString.attributes.map fun a => a.font.name) = ["PingFangSC-Regular"] :=
  ⟨by decide, rfl, rfl⟩

/-- Witness for C1 (amended): a concrete CJK text with a mapped family,
instantiating `createText_dual_font` and discharging its hypothesis. -/
theorem createText_dual_font_witness :
    hasChineseChar "中" = true ∧
    ((createText (fun _ => "id") "中" { x := 0, y := 0, width := 100, height := 20 }
        { fontFamily := some "Roboto-Bold", fontSize := some 18 }).style.textStyle.map
      fun ts => ts.encodeAttributes.font.name) =
      some (chineseFontFor (jsStrOr (some "Roboto-Bold") "Roboto-Regular")) :=
  ⟨by decide,
   ((createText_dual_font (fun _ => "id") "中" { x := 0, y := 0, width := 100, height := 20 }
      { fontFamily := some "Roboto-Bold", fontSize := some 18 }).2.1 (by decide)).1⟩

/-! ## sketch-generator.cjs (sketch-api document): `generateModule` dataTable rows -/

/-- Embeds the frame effect of the `dataTable` branch of `generateModule`
(sketch-generator.cjs lines 1987-2032) on `module.rows`: the row loop runs
`row.pop()` on each row array of the caller's module exactly when
`module.hasActions` is truthy — dropping that row's last element in place
(`pop` on an empty array is a no-op) before rendering its cells — and the
rows are touched in no other way, so this is the rows value the caller
observes after assembly. -/
def generateModuleDataTableRows {α : Type} (hasActions : Bool)
    (rows : List (List α)) : List (List α) :=
  rows.map fun row => if hasActions then row.dropLast else row

theorem mapDropLastNe {α : Type} (rows : List (List α))
    (hex : ∃ r ∈ rows, r ≠ []) : rows.map List.dropLast ≠ rows := by
  induction rows with
  | nil => simp at hex
  | cons a l ih =>
    intro h
    simp only [List.map_cons, List.cons.injEq] at h
    obtain ⟨h1, h2⟩ := h
    rcases hex with ⟨r, hr, hne⟩
    rcases List.mem_cons.mp hr with rfl | hmem
    · have hl := congrArg List.length h1
      rw [List.length_dropLast] at hl
      match r, hne with
      | c :: t, _ => simp at hl
    · exact ih ⟨r, hmem, hne⟩ h2

/-- C10 (amended): in the dataTable branch, a truthy `hasActions` makes
`generateModule` pop the last element of every row array of the caller's
module in place, so the module the caller observes differs from the one
passed in whenever at least one row is nonempty (a module whose rows are all
empty is observed unchanged, see `generateModuleDataTableRows_empty_rows`);
with `hasActions` falsy the rows are left untouched. -/
theorem generateModuleDataTableRows_spec (rows : List (List String)) :
    generateModuleDataTableRows true rows = rows.map List.dropLast ∧
    generateModuleDataTableRows false rows = rows ∧
    ((∃ r ∈ rows, r ≠ []) → generateModuleDataTableRows true rows ≠ rows) := by
  refine ⟨by simp [generateModuleDataTableRows], by simp [generateModuleDataTableRows], ?_⟩
  intro hex
  have h := mapDropLastNe rows hex
  simpa [generateModuleDataTableRows] using h

/-- Counterexample for C10 as stated: a dataTable module with
`hasActions = true` and a single empty row is observed unchanged by the
caller (pop on an empty array removes nothing), so the observed module does
not always differ from the one passed in. -/
theorem generateModuleDataTableRows_empty_rows :
    generateModuleDataTableRows true [([] : List String)] = [[]] :=
  rfl

/-- Witness for C10 (amended): a one-row module with a nonempty row,
instantiating `generateModuleDataTableRows_spec` and discharging its
nonemptiness hypothesis. -/
theorem generateModuleDataTableRows_spec_witness :
    (∃ r ∈ [["a"]], r ≠ ([] : List String)) ∧
    generateModuleDataTableRows true [["a"]] ≠ [["a"]] :=
  ⟨⟨["a"], by simp⟩,
   (generateModuleDataTableRows_spec [["a"]]).2.2 ⟨["a"], by simp⟩⟩

/-! ## sketch-validator.cjs: the structural validator

Each `validateX` function mirrors its source counterpart over parsed values,
returning the violation messages in the exact order the source pushes them.
-/

/-- `if cond then push msg` as a list fragment. -/
def errIf (cond : Bool) (msg : String) : List String :=
  if cond then [msg] else []

/-- A numeric color channel in `[0, 1]`; the source errors unless
`typeof v === 'number' && v >= 0 && v <= 1`. -/
def colorChannelOk (v : JsVal) : Bool :=
  match v with
  | .num q => decide (0 ≤ q) && decide (q ≤ 1)
  | _ => false

/-- Embeds `validateColor` (sketch-validator.cjs lines 23-38). -/
def validateColor (color : JsVal) (path : String) : List String :=
  if !(jsTruthy color && jsIsObjectType color) then [path ++ " must be an object"]
  else
    errIf (!jsEqStr (jsGet color "_class") "color") (path ++ "._class must be \"color\"") ++
    (["red", "green", "blue", "alpha"].filterMap fun prop =>
      if !colorChannelOk (jsGet color prop) then
        some (path ++ "." ++ prop ++ " must be a number between 0 and 1")
      else none)

/-- Embeds `validateRect` (sketch-validator.cjs lines 43-58). -/
def validateRect (rect : JsVal) (path : String) : List String :=
  if !(jsTruthy rect && jsIsObjectType rect) then [path ++ " must be an object"]
  else
    errIf (!jsEqStr (jsGet rect "_class") "rect") (path ++ "._class must be \"rect\"") ++
    (["x", "y", "width", "height"].filterMap fun prop =>
      if !jsIsNumber (jsGet rect prop) then
        some (path ++ "." ++ prop ++ " must be a number")
      else none)

/-- Embeds `validateRulerData` (sketch-validator.cjs lines 63-79). -/
def validateRulerData (data : JsVal) (path : String) : List String :=
  if !(jsTruthy data && jsIsObjectType data) then [path ++ " must be an object"]
  else
    errIf (!jsEqStr (jsGet data "_class") "rulerData") (path ++ "._class must be \"rulerData\"") ++
    errIf (!jsIsNumber (jsGet data "base")) (path ++ ".base must be a number") ++
    errIf (!jsIsArrayVal (jsGet data "guides")) (path ++ ".guides must be an array")

/-- Embeds `validateExportOptions` (sketch-validator.cjs lines 84-106). -/
def validateExportOptions (options : JsVal) (path : String) : List String :=
  if !(jsTruthy options && jsIsObjectType options) then [path ++ " must be an object"]
  else
    errIf (!jsEqStr (jsGet options "_class") "exportOptions")
      (path ++ "._class must be \"exportOptions\"") ++
    errIf (!jsIsArrayVal (jsGet options "exportFormats"))
      (path ++ ".exportFormats must be an array") ++
    errIf (!jsIsArrayVal (jsGet options "includedLayerIds"))
      (path ++ ".includedLayerIds must be an array") ++
    errIf (!jsIsNumber (jsGet options "layerOptions"))
      (path ++ ".layerOptions must be a number") ++
    errIf (!jsIsBoolean (jsGet options "shouldTrim"))
      (path ++ ".shouldTrim must be a boolean")

/-- Opening curly brace (written by code point to keep it out of string
literals). -/
def curlyOpen : Char := Char.ofNat 123

/-- Closing curly brace. -/
def curlyClose : Char := Char.ofNat 125

/-- One or more decimal digits (`\d+`), returning the unconsumed rest. -/
def parseDigits1 (cs : List Char) : Option (List Char) :=
  match cs with
  | c :: _ => if c.isDigit then some (cs.dropWhile Char.isDigit) else none
  | [] => none

/-- `-?\d+(\.\d+)?`, returning the unconsumed rest. The optional fraction
group matches only when the dot is followed by at least one digit (otherwise
the regex backtracks and leaves the dot unconsumed). -/
def parseNumLit (cs : List Char) : Option (List Char) :=
  let cs1 := match cs with
    | '-' :: rest => rest
    | other => other
  match parseDigits1 cs1 with
  | none => none
  | some r =>
    match r with
    | '.' :: r2 =>
      match parseDigits1 r2 with
      | some r3 => some r3
      | none => some r
    | _ => some r

/-- The anchored point pattern of `validateCurvePoint`
(`/^\{-?\d+(\.\d+)?, -?\d+(\.\d+)?\}$/`). -/
def matchPointString (s : String) : Bool :=
  match s.data with
  | c :: rest =>
    c == curlyOpen &&
    (match parseNumLit rest with
     | some (',' :: ' ' :: r2) =>
       (match parseNumLit r2 with
        | some [d] => d == curlyClose
        | _ => false)
     | _ => false)
  | [] => false

/-- A point-string property: `typeof v === 'string' && pattern.test(v)`. -/
def pointStringOk (v : JsVal) : Bool :=
  match v with
  | .str s => matchPointString s
  | _ => false

/-- Embeds `validateCurvePoint` (sketch-validator.cjs lines 111-140). -/
def validateCurvePoint (point : JsVal) (path : String) : List String :=
  if !(jsTruthy point && jsIsObjectType point) then [path ++ " must be an object"]
  else
    errIf (!jsEqStr (jsGet point "_class") "curvePoint")
      (path ++ "._class must be \"curvePoint\"") ++
    errIf (!jsIsNumber (jsGet point "cornerRadius")) (path ++ ".cornerRadius must be a number") ++
    errIf (!jsIsNumber (jsGet point "curveMode")) (path ++ ".curveMode must be a number") ++
    errIf (!jsIsBoolean (jsGet point "hasCurveFrom")) (path ++ ".hasCurveFrom must be a boolean") ++
    errIf (!jsIsBoolean (jsGet point "hasCurveTo")) (path ++ ".hasCurveTo must be a boolean") ++
    (["point", "curveFrom", "curveTo"].filterMap fun prop =>
      if !pointStringOk (jsGet point prop) then
        some (path ++ "." ++ prop ++ " must be a point string like \"\x7b0, 0\x7d\"")
      else none)

/-- Embeds `validateFill` (sketch-validator.cjs lines 145-164). -/
def validateFill (fill : JsVal) (path : String) : List String :=
  if !(jsTruthy fill && jsIsObjectType fill) then [path ++ " must be an object"]
  else
    errIf (!jsEqStr (jsGet fill "_class") "fill") (path ++ "._class must be \"fill\"") ++
    errIf (!jsIsNumber (jsGet fill "fillType")) (path ++ ".fillType must be a number") ++
    errIf (!jsIsBoolean (jsGet fill "isEnabled")) (path ++ ".isEnabled must be a boolean") ++
    (if jsTruthy (jsGet fill "color") then validateColor (jsGet fill "color") (path ++ ".color")
     else [])

/-- `forEach` with the element index, concatenating the produced messages. -/
def walkIdx (f : Nat → JsVal → List String) : Nat → List JsVal → List String
  | _, [] => []
  | i, v :: rest => f i v ++ walkIdx f (i + 1) rest

theorem walkIdx_append (f : Nat → JsVal → List String) (i : Nat) (l1 l2 : List JsVal) :
    walkIdx f i (l1 ++ l2) = walkIdx f i l1 ++ walkIdx f (i + l1.length) l2 := by
  induction l1 generalizing i with
  | nil => simp [walkIdx]
  | cons a l ih =>
    simp only [List.cons_append, walkIdx, List.length_cons, List.append_assoc, List.append_eq]
    rw [ih (i + 1)]
    have h : i + 1 + l.length = i + (l.length + 1) := by omega
    rw [h]

/-- Embeds `validateStyle` (sketch-validator.cjs lines 169-198). -/
def validateStyle (style : JsVal) (path : String) : List String :=
  if !(jsTruthy style && jsIsObjectType style) then [path ++ " must be an object"]
  else
    errIf (!jsEqStr (jsGet style "_class") "style") (path ++ "._class must be \"style\"") ++
    errIf (jsTruthy (jsGet style "do_objectID") && !isValidUUIDVal (jsGet style "do_objectID"))
      (path ++ ".do_objectID must be a valid UUID") ++
    (match jsGet style "fills" with
     | .arr fills =>
       walkIdx (fun i fill => validateFill fill (path ++ ".fills[" ++ toString i ++ "]")) 0 fills
     | _ => [path ++ ".fills must be an array"]) ++
    errIf (!jsIsArrayVal (jsGet style "borders")) (path ++ ".borders must be an array") ++
    errIf (!jsIsArrayVal (jsGet style "shadows")) (path ++ ".shadows must be an array") ++
    errIf (!jsIsArrayVal (jsGet style "innerShadows"))
      (path ++ ".innerShadows must be an array")

/-- Embeds `validateRectangle` (sketch-validator.cjs lines 203-257). -/
def validateRectangle (rect : JsVal) (path : String) : List String :=
  if !(jsTruthy rect && jsIsObjectType rect) then [path ++ " must be an object"]
  else
    errIf (!jsEqStr (jsGet rect "_class") "rectangle") (path ++ "._class must be \"rectangle\"") ++
    errIf (!isValidUUIDVal (jsGet rect "do_objectID"))
      (path ++ ".do_objectID must be a valid UUID") ++
    errIf (!jsIsString (jsGet rect "name")) (path ++ ".name must be a string") ++
    validateRect (jsGet rect "frame") (path ++ ".frame") ++
    errIf (!jsIsNumber (jsGet rect "resizingConstraint"))
      (path ++ ".resizingConstraint must be a number") ++
    errIf (!jsIsNumber (jsGet rect "booleanOperation"))
      (path ++ ".booleanOperation must be a number") ++
    validateExportOptions (jsGet rect "exportOptions") (path ++ ".exportOptions") ++
    errIf (!jsIsBoolean (jsGet rect "isVisible")) (path ++ ".isVisible must be a boolean") ++
    errIf (!jsIsBoolean (jsGet rect "isLocked")) (path ++ ".isLocked must be a boolean") ++
    errIf (!jsIsBoolean (jsGet rect "edited")) (path ++ ".edited must be a boolean") ++
    errIf (!jsIsBoolean (jsGet rect "isClosed")) (path ++ ".isClosed must be a boolean") ++
    errIf (!jsIsNumber (jsGet rect "pointRadiusBehaviour"))
      (path ++ ".pointRadiusBehaviour must be a number") ++
    errIf (!jsIsNumber (jsGet rect "fixedRadius")) (path ++ ".fixedRadius must be a number") ++
    (match jsGet rect "points" with
     | .arr points =>
       if points.length ≠ 4 then [path ++ ".points must have exactly 4 points"]
       else walkIdx (fun i pt => validateCurvePoint pt (path ++ ".points[" ++ toString i ++ "]"))
         0 points
     | _ => [path ++ ".points must be an array"]) ++
    (if jsTruthy (jsGet rect "style") then validateStyle (jsGet rect "style") (path ++ ".style")
     else [])

/-- One attribute of an attributed string (the body of the `forEach` in
`validateText`, sketch-validator.cjs lines 302-330). The font check uses the
optional chain `attr.attributes?.MSAttributedStringFontAttribute`. -/
def validateStringAttribute (path : String) (i : Nat) (attr : JsVal) : List String :=
  errIf (!jsEqStr (jsGet attr "_class") "stringAttribute")
    (path ++ ".attributedString.attributes[" ++ toString i ++ "]._class must be \"stringAttribute\"") ++
  errIf (!jsIsNumber (jsGet attr "location"))
    (path ++ ".attributedString.attributes[" ++ toString i ++ "].location must be a number") ++
  errIf (!jsIsNumber (jsGet attr "length"))
    (path ++ ".attributedString.attributes[" ++ toString i ++ "].length must be a number") ++
  (let fontDesc := jsGet (jsGet attr "attributes") "MSAttributedStringFontAttribute"
   if jsTruthy fontDesc then
     errIf (!jsEqStr (jsGet fontDesc "_class") "fontDescriptor")
       (path ++ ".attributedString.attributes[" ++ toString i ++
        "].MSAttributedStringFontAttribute._class must be \"fontDescriptor\"") ++
     (if !(jsTruthy (jsGet fontDesc "attributes") && jsIsObjectType (jsGet fontDesc "attributes"))
      then
        [path ++ ".attributedString.attributes[" ++ toString i ++
         "].MSAttributedStringFontAttribute.attributes is required (Figma compatibility)"]
      else
        errIf (!jsIsString (jsGet (jsGet fontDesc "attributes") "name"))
          (path ++ ".attributedString.attributes[" ++ toString i ++
           "].MSAttributedStringFontAttribute.attributes.name must be a string") ++
        errIf (!jsIsNumber (jsGet (jsGet fontDesc "attributes") "size"))
          (path ++ ".attributedString.attributes[" ++ toString i ++
           "].MSAttributedStringFontAttribute.attributes.size must be a number"))
   else [])

/-- Embeds `validateText` (sketch-validator.cjs lines 262-338). -/
def validateText (text : JsVal) (path : String) : List String :=
  if !(jsTruthy text && jsIsObjectType text) then [path ++ " must be an object"]
  else
    errIf (!jsEqStr (jsGet text "_class") "text") (path ++ "._class must be \"text\"") ++
    errIf (!isValidUUIDVal (jsGet text "do_objectID"))
      (path ++ ".do_objectID must be a valid UUID") ++
    errIf (!jsIsString (jsGet text "name")) (path ++ ".name must be a string") ++
    validateRect (jsGet text "frame") (path ++ ".frame") ++
    errIf (!jsIsNumber (jsGet text "resizingConstraint"))
      (path ++ ".resizingConstraint must be a number") ++
    errIf (!jsIsNumber (jsGet text "booleanOperation"))
      (path ++ ".booleanOperation must be a number") ++
    validateExportOptions (jsGet text "exportOptions") (path ++ ".exportOptions") ++
    errIf (!jsIsBoolean (jsGet text "isVisible")) (path ++ ".isVisible must be a boolean") ++
    (let astr := jsGet text "attributedString"
     if !(jsTruthy astr && jsIsObjectType astr) then
       [path ++ ".attributedString must be an object"]
     else
       errIf (!jsEqStr (jsGet astr "_class") "attributedString")
         (path ++ ".attributedString._class must be \"attributedString\"") ++
       errIf (!jsIsString (jsGet astr "string"))
         (path ++ ".attributedString.string must be a string") ++
       (match jsGet astr "attributes" with
        | .arr attrs => walkIdx (validateStringAttribute path) 0 attrs
        | _ => [path ++ ".attributedString.attributes must be an array"])) ++
    (if jsTruthy (jsGet text "style") then validateStyle (jsGet text "style") (path ++ ".style")
     else [])

/-- The body of the layer `forEach` of `validateArtboard` (sketch-validator.cjs
lines 391-398): only the tags `rectangle` and `text` have a rule; every other
tag falls through the `if`/`else if` chain with no violation (the source
carries only a TODO comment there). -/
def artboardLayerStep (path : String) (i : Nat) (layer : JsVal) : List String :=
  if jsEqStr (jsGet layer "_class") "rectangle" then
    validateRectangle layer (path ++ ".layers[" ++ toString i ++ "]")
  else if jsEqStr (jsGet layer "_class") "text" then
    validateText layer (path ++ ".layers[" ++ toString i ++ "]")
  else []

/-- Embeds `validateArtboard` (sketch-validator.cjs lines 343-401). -/
def validateArtboard (artboard : JsVal) (path : String) : List String :=
  if !(jsTruthy artboard && jsIsObjectType artboard) then [path ++ " must be an object"]
  else
    errIf (!jsEqStr (jsGet artboard "_class") "artboard")
      (path ++ "._class must be \"artboard\"") ++
    errIf (!isValidUUIDVal (jsGet artboard "do_objectID"))
      (path ++ ".do_objectID must be a valid UUID") ++
    errIf (!jsIsString (jsGet artboard "name")) (path ++ ".name must be a string") ++
    (let gl := jsGet artboard "groupLayout"
     if !(jsTruthy gl && jsIsObjectType gl) then
       [path ++ ".groupLayout is required for Figma compatibility"]
     else
       errIf (!jsEqStr (jsGet gl "_class") "MSImmutableFreeformGroupLayout")
         (path ++ ".groupLayout._class must be \"MSImmutableFreeformGroupLayout\"")) ++
    validateRect (jsGet artboard "frame") (path ++ ".frame") ++
    errIf (!jsIsNumber (jsGet artboard "resizingConstraint"))
      (path ++ ".resizingConstraint must be a number") ++
    errIf (!jsIsNumber (jsGet artboard "booleanOperation"))
      (path ++ ".booleanOperation must be a number") ++
    validateExportOptions (jsGet artboard "exportOptions") (path ++ ".exportOptions") ++
    errIf (!jsIsBoolean (jsGet artboard "isVisible")) (path ++ ".isVisible must be a boolean") ++
    errIf (!jsIsBoolean (jsGet artboard "hasBackgroundColor"))
      (path ++ ".hasBackgroundColor must be a boolean") ++
    (if jsTruthy (jsGet artboard "backgroundColor") then
       validateColor (jsGet artboard "backgroundColor") (path ++ ".backgroundColor")
     else []) ++
    validateRulerData (jsGet artboard "horizontalRulerData") (path ++ ".horizontalRulerData") ++
    validateRulerData (jsGet artboard "verticalRulerData") (path ++ ".verticalRulerData") ++
    errIf (!jsIsBoolean (jsGet artboard "hasClickThrough"))
      (path ++ ".hasClickThrough must be a boolean") ++
    (match jsGet artboard "layers" with
     | .arr layers => walkIdx (artboardLayerStep path) 0 layers
     | _ => [path ++ ".layers must be an array"])

/-- The body of the layer `forEach` of `validatePage` (sketch-validator.cjs
lines 438-442): only the tag `artboard` has a rule; every other tag is
passed over with no violation. -/
def pageLayerStep (path : String) (i : Nat) (layer : JsVal) : List String :=
  if jsEqStr (jsGet layer "_class") "artboard" then
    validateArtboard layer (path ++ ".layers[" ++ toString i ++ "]")
  else []

/-- Embeds `validatePage` (sketch-validator.cjs lines 406-445). -/
def validatePage (page : JsVal) (path : String) : List String :=
  if !(jsTruthy page && jsIsObjectType page) then [path ++ " must be an object"]
  else
    errIf (!jsEqStr (jsGet page "_class") "page") (path ++ "._class must be \"page\"") ++
    errIf (!isValidUUIDVal (jsGet page "do_objectID"))
      (path ++ ".do_objectID must be a valid UUID") ++
    errIf (!jsIsString (jsGet page "name")) (path ++ ".name must be a string") ++
    (let gl := jsGet page "groupLayout"
     if !(jsTruthy gl && jsIsObjectType gl) then
       [path ++ ".groupLayout is required for Figma compatibility"]
     else
       errIf (!jsEqStr (jsGet gl "_class") "MSImmutableFreeformGroupLayout")
         (path ++ ".groupLayout._class must be \"MSImmutableFreeformGroupLayout\"")) ++
    validateRulerData (jsGet page "horizontalRulerData") (path ++ ".horizontalRulerData") ++
    validateRulerData (jsGet page "verticalRulerData") (path ++ ".verticalRulerData") ++
    errIf (!jsIsBoolean (jsGet page "hasClickThrough"))
      (path ++ ".hasClickThrough must be a boolean") ++
    validateExportOptions (jsGet page "exportOptions") (path ++ ".exportOptions") ++
    (match jsGet page "layers" with
     | .arr layers => walkIdx (pageLayerStep path) 0 layers
     | _ => [path ++ ".layers must be an array"])

/-- One page reference of `document.pages` (the body of the `forEach` in
`validateDocument`, sketch-validator.cjs lines 477-487). -/
def documentPageRefStep (path : String) (i : Nat) (pageRef : JsVal) : List String :=
  errIf (!jsEqStr (jsGet pageRef "_class") "MSJSONFileReference")
    (path ++ ".pages[" ++ toString i ++ "]._class must be \"MSJSONFileReference\"") ++
  errIf (!jsEqStr (jsGet pageRef "_ref_class") "MSImmutablePage")
    (path ++ ".pages[" ++ toString i ++ "]._ref_class must be \"MSImmutablePage\"") ++
  errIf (!jsIsString (jsGet pageRef "_ref"))
    (path ++ ".pages[" ++ toString i ++ "]._ref must be a string")

/-- Embeds `validateDocument` (sketch-validator.cjs lines 450-506). -/
def validateDocument (doc : JsVal) (path : String) : List String :=
  if !(jsTruthy doc && jsIsObjectType doc) then [path ++ " must be an object"]
  else
    errIf (!jsEqStr (jsGet doc "_class") "document") (path ++ "._class must be \"document\"") ++
    errIf (!isValidUUIDVal (jsGet doc "do_objectID"))
      (path ++ ".do_objectID must be a valid UUID") ++
    errIf (!jsIsString (jsGet doc "appVersion")) (path ++ ".appVersion must be a string") ++
    errIf (!jsIsNumber (jsGet doc "build")) (path ++ ".build must be a number") ++
    errIf (!jsIsNumber (jsGet doc "currentPageIndex"))
      (path ++ ".currentPageIndex must be a number") ++
    errIf (!jsIsNumber (jsGet doc "colorSpace")) (path ++ ".colorSpace must be a number") ++
    (match jsGet doc "pages" with
     | .arr pages => walkIdx (documentPageRefStep path) 0 pages
     | _ => [path ++ ".pages must be an array"]) ++
    errIf (!(jsTruthy (jsGet doc "assets") &&
        jsEqStr (jsGet (jsGet doc "assets") "_class") "assetCollection"))
      (path ++ ".assets must have _class \"assetCollection\"") ++
    errIf (!(jsTruthy (jsGet doc "layerStyles") &&
        jsEqStr (jsGet (jsGet doc "layerStyles") "_class") "sharedStyleContainer"))
      (path ++ ".layerStyles must have _class \"sharedStyleContainer\"") ++
    errIf (!(jsTruthy (jsGet doc "layerSymbols") &&
        jsEqStr (jsGet (jsGet doc "layerSymbols") "_class") "symbolContainer"))
      (path ++ ".layerSymbols must have _class \"symbolContainer\"") ++
    errIf (!(jsTruthy (jsGet doc "layerTextStyles") &&
        jsEqStr (jsGet (jsGet doc "layerTextStyles") "_class") "sharedTextStyleContainer"))
      (path ++ ".layerTextStyles must have _class \"sharedTextStyleContainer\"")

/-- `Object.entries(v)`: the own enumerable entries — the field list for a
plain object, index-keyed entries for an array, empty for primitives (the
validator only reaches this behind a truthy-object guard). -/
def jsEntries : JsVal → List (String × JsVal)
  | .obj fields => fields
  | .arr xs => (List.range xs.length).zip xs |>.map fun p => (toString p.1, p.2)
  | _ => []

/-- One artboard entry of `meta.pagesAndArtboards[pageId].artboards`. -/
def metaArtboardEntryStep (path pageId : String) (e : String × JsVal) : List String :=
  errIf (!isValidUUID e.1)
    (path ++ ".pagesAndArtboards[" ++ pageId ++ "].artboards has invalid UUID key: " ++ e.1) ++
  errIf (!jsIsString (jsGet e.2 "name"))
    (path ++ ".pagesAndArtboards[" ++ pageId ++ "].artboards[" ++ e.1 ++
     "].name must be a string")

/-- One page entry of `meta.pagesAndArtboards`. -/
def metaPageEntryStep (path : String) (e : String × JsVal) : List String :=
  errIf (!isValidUUID e.1)
    (path ++ ".pagesAndArtboards has invalid UUID key: " ++ e.1) ++
  errIf (!jsIsString (jsGet e.2 "name"))
    (path ++ ".pagesAndArtboards[" ++ e.1 ++ "].name must be a string") ++
  (let artboards := jsGet e.2 "artboards"
   if !(jsTruthy artboards && jsIsObjectType artboards) then
     [path ++ ".pagesAndArtboards[" ++ e.1 ++ "].artboards must be an object"]
   else (jsEntries artboards).flatMap (metaArtboardEntryStep path e.1))

/-- Embeds `validateMeta` (sketch-validator.cjs lines 511-563). -/
def validateMeta (meta : JsVal) (path : String) : List String :=
  if !(jsTruthy meta && jsIsObjectType meta) then [path ++ " must be an object"]
  else
    errIf (!jsIsString (jsGet meta "commit")) (path ++ ".commit must be a string") ++
    errIf (!jsIsNumber (jsGet meta "version")) (path ++ ".version must be a number (121-146)") ++
    errIf (!jsEqNum (jsGet meta "compatibilityVersion") 99)
      (path ++ ".compatibilityVersion must be 99") ++
    errIf (!jsIsString (jsGet meta "app")) (path ++ ".app must be a string") ++
    errIf (!jsIsNumber (jsGet meta "build")) (path ++ ".build must be a number") ++
    errIf (!jsIsString (jsGet meta "appVersion")) (path ++ ".appVersion must be a string") ++
    errIf (!jsIsNumber (jsGet meta "autosaved")) (path ++ ".autosaved must be a number (0 or 1)") ++
    (let paa := jsGet meta "pagesAndArtboards"
     if !(jsTruthy paa && jsIsObjectType paa) then
       [path ++ ".pagesAndArtboards must be an object"]
     else (jsEntries paa).flatMap (metaPageEntryStep path))

/-- Embeds `validateUser` (sketch-validator.cjs lines 568-598). -/
def validateUser (user : JsVal) (pageIds : List String) (path : String) : List String :=
  if !(jsTruthy user && jsIsObjectType user) then [path ++ " must be an object"]
  else
    (let doc := jsGet user "document"
     if !(jsTruthy doc && jsIsObjectType doc) then [path ++ ".document must be an object"]
     else
       errIf (!jsIsNumber (jsGet doc "pageListHeight"))
         (path ++ ".document.pageListHeight must be a number") ++
       errIf (!jsIsNumber (jsGet doc "pageListCollapsed"))
         (path ++ ".document.pageListCollapsed must be a number")) ++
    (pageIds.flatMap fun pageId =>
      if !jsTruthy (jsGet user pageId) then
        [path ++ " missing data for page " ++ pageId]
      else
        errIf (!jsIsString (jsGet (jsGet user pageId) "scrollOrigin"))
          (path ++ "[" ++ pageId ++ "].scrollOrigin must be a string") ++
        errIf (!jsIsNumber (jsGet (jsGet user pageId) "zoomValue"))
          (path ++ "[" ++ pageId ++ "].zoomValue must be a number"))

/-! ## sketch-validator.cjs: `validateSketchDirectory` (cross-file mode)

The on-disk directory is modeled by `DirFS`: each of the three root files is
`none` when absent, `some (.error m)` when present but unparseable (with `m`
the `JSON.parse` exception message) and `some (.ok v)` when it parses to
`v`; page files are keyed by the page identifier (the basename without
`.json`). The single `try`/`catch` wrapping the whole walk in the source
means the first parse failure anywhere aborts the remaining walk; the model
threads that as the `Option String` exception component. -/

/-- The validator's result object `{ valid, errors }`. -/
structure ValidationResult where
  valid : Bool
  errors : List String
deriving DecidableEq

/-- The serialized directory. -/
structure DirFS where
  documentFile : Option (Except String JsVal)
  metaFile : Option (Except String JsVal)
  userFile : Option (Except String JsVal)
  pagesDirExists : Bool
  pageFiles : List (String × Except String JsVal)

/-- Look up `pages/<id>.json`. -/
def findPageFile : List (String × Except String JsVal) → String → Option (Except String JsVal)
  | [], _ => none
  | (k, v) :: rest, key => if k == key then some v else findPageFile rest key

/-- `startsWith` on character lists. -/
def startsWithList : List Char → List Char → Bool
  | [], _ => true
  | _ :: _, [] => false
  | p :: ps, c :: cs => p == c && startsWithList ps cs

/-- `String.prototype.replace` with a plain-string pattern and empty
replacement: delete the first occurrence of the pattern. -/
def replaceFirstAux (pat : List Char) : List Char → List Char
  | [] => []
  | c :: rest =>
    if startsWithList pat (c :: rest) then List.drop pat.length (c :: rest)
    else c :: replaceFirstAux pat rest

/-- `s.replace(pat, '')`. -/
def jsReplaceFirst (s : String) (pat : String) : String :=
  ⟨replaceFirstAux pat.data s.data⟩

/-- One iteration of the `for (const pageRef of doc.pages)` loop
(sketch-validator.cjs lines 634-645): compute
`pageRef._ref?.replace('pages/', '')`, skip falsy ids, report a missing page
file, and otherwise parse and validate the page file. `Except.error`
models an exception escaping the iteration (a parse failure — or a
TypeError when `_ref` is neither a string nor null/undefined). -/
def pageRefStep (d : DirFS) (ref : JsVal) : Except String (List String) :=
  match jsGet ref "_ref" with
  | .str s =>
    let pageId := jsReplaceFirst s "pages/"
    if pageId == "" then .ok []
    else
      match findPageFile d.pageFiles pageId with
      | none => .ok ["Missing page file: pages/" ++ pageId ++ ".json"]
      | some (.error m) => .error m
      | some (.ok page) => .ok (validatePage page "page")
  | .null => .ok []
  | .undefined => .ok []
  | _ => .error "pageRef._ref.replace is not a function"

/-- The page loop with the accumulated messages and the exception (if any)
that ended it; messages pushed before the exception are retained. -/
def pageRefsWalk (d : DirFS) : List JsVal → List String × Option String
  | [] => ([], none)
  | ref :: rest =>
    match pageRefStep d ref with
    | .error m => ([], some m)
    | .ok es =>
      let (more, exn) := pageRefsWalk d rest
      (es ++ more, exn)

/-- `doc.pages?.map(p => p._ref?.replace('pages/', '')).filter(Boolean)`
(sketch-validator.cjs line 654): the id list for `validateUser`; the map
throws on a non-string, non-nullish `_ref`. -/
def pageIdsOf : List JsVal → Except String (List String)
  | [] => .ok []
  | ref :: rest =>
    match jsGet ref "_ref" with
    | .str s =>
      (pageIdsOf rest).map fun ids =>
        let pageId := jsReplaceFirst s "pages/"
        if pageId == "" then ids else pageId :: ids
    | .null => (pageIdsOf rest).map fun ids => ids
    | .undefined => (pageIdsOf rest).map fun ids => ids
    | _ => .error "pageRef._ref.replace is not a function"

/-- The body of the `try` block of `validateSketchDirectory`
(sketch-validator.cjs lines 628-656), after the existence checks succeeded:
returns the messages pushed so far together with the exception message that
aborted the walk, if any. -/
def tryBody (d : DirFS) (docC metaC userC : Except String JsVal) :
    List String × Option String :=
  match docC with
  | .error m => ([], some m)
  | .ok doc =>
    let e1 := validateDocument doc "document"
    let pagesPart :=
      match jsGet doc "pages" with
      | .arr refs => pageRefsWalk d refs
      | _ => ([], none)
    match pagesPart.2 with
    | some m => (e1 ++ pagesPart.1, some m)
    | none =>
      match metaC with
      | .error m => (e1 ++ pagesPart.1, some m)
      | .ok meta =>
        let e3 := validateMeta meta "meta"
        match userC with
        | .error m => (e1 ++ pagesPart.1 ++ e3, some m)
        | .ok user =>
          let idsPart :=
            match jsGet doc "pages" with
            | .arr refs => pageIdsOf refs
            | .undefined => .ok []
            | .null => .ok []
            | _ => .error "doc.pages.map is not a function"
          match idsPart with
          | .error m => (e1 ++ pagesPart.1 ++ e3, some m)
          | .ok ids => (e1 ++ pagesPart.1 ++ e3 ++ validateUser user ids "user", none)

/-- Embeds `validateSketchDirectory` (sketch-validator.cjs lines 605-665):
existence checks for the three root files and the pages directory (with an
early return when any is missing), then the single-`try` walk; a caught
exception appends one `Error parsing JSON: <message>` violation, and
`valid` is `errors.length === 0`. -/
def validateSketchDirectory (d : DirFS) : ValidationResult :=
  let missing :=
    errIf d.documentFile.isNone "Missing required file: document.json" ++
    errIf d.metaFile.isNone "Missing required file: meta.json" ++
    errIf d.userFile.isNone "Missing required file: user.json" ++
    errIf (!d.pagesDirExists) "Missing pages directory"
  if missing.isEmpty then
    match d.documentFile, d.metaFile, d.userFile with
    | some docC, some metaC, some userC =>
      let body := tryBody d docC metaC userC
      let errors := body.1 ++
        (match body.2 with
         | some m => ["Error parsing JSON: " ++ m]
         | none => [])
      { valid := errors.isEmpty, errors := errors }
    | _, _, _ =>
      -- unreachable: `missing.isEmpty` forces all three files present
      { valid := false, errors := [] }
  else { valid := false, errors := missing }

/-! ## sketch-packer document: `packSketch` validation step (C3) -/

/-- A JavaScript `Error` object as constructed by `new Error(message)`: the
constructor stores nothing but the message — there is no field carrying a
violation list. -/
structure JsError where
  message : String
deriving DecidableEq

/-- Embeds the validation-and-throw step of `packSketch`
(sketch-generator.cjs lines 950 and 1061-1070): with
`validate = options.validate !== false` (the option modeled as
`Option Bool`, `none` for absent), a failed validation of the written
directory throws `new Error('Sketch validation failed')` before
`createZipWithAdmZip` runs; `.ok ()` models reaching the zip step, i.e. the
archive being written. -/
def packSketchValidation (validateOption : Option Bool) (dir : DirFS) :
    Except JsError Unit :=
  let validate := !(validateOption == some false)
  if validate && !(validateSketchDirectory dir).valid then
    .error { message := "Sketch validation failed" }
  else .ok ()

/-! ### C3: the packer's reaction to a failed validation -/

/-- A directory with all four required entries missing. -/
def dirAllMissing : DirFS :=
  { documentFile := none, metaFile := none, userFile := none,
    pagesDirExists := false, pageFiles := [] }

/-- A directory whose three root files exist (with arbitrary parseable
content) but whose `pages` directory is missing. -/
def dirOnlyPagesMissing : DirFS :=
  { documentFile := some (.ok .null), metaFile := some (.ok .null),
    userFile := some (.ok .null), pagesDirExists := false, pageFiles := [] }

/-- Counterexample for C3 as stated: two directories with different
violation lists produce the very same thrown error value
`Error('Sketch validation failed')` — a message-only object — so the raised
error cannot carry the violation list. -/
theorem packSketch_error_carries_no_violations :
    packSketchValidation none dirAllMissing = .error { message := "Sketch validation failed" } ∧
    packSketchValidation none dirOnlyPagesMissing =
      .error { message := "Sketch validation failed" } ∧
    (validateSketchDirectory dirAllMissing).errors ≠
      (validateSketchDirectory dirOnlyPagesMissing).errors :=
  ⟨rfl, rfl, by decide⟩

/-- C3 (amended): when validation is enabled (`options.validate` not
explicitly false) and the validator reports any violation, `packSketch`
throws the fixed message-only error `Error('Sketch validation failed')` —
carrying no violation list — before the archive step, so no archive is
produced; with a clean validation (or validation explicitly disabled) the
archive step is reached. -/
theorem packSketchValidation_spec (validateOption : Option Bool) (dir : DirFS) :
    (validateOption ≠ some false → (validateSketchDirectory dir).valid = false →
      packSketchValidation validateOption dir =
        .error { message := "Sketch validation failed" }) ∧
    ((validateSketchDirectory dir).valid = true →
      packSketchValidation validateOption dir = .ok ()) ∧
    (validateOption = some false → packSketchValidation validateOption dir = .ok ()) := by
  refine ⟨?_, ?_, ?_⟩
  · intro h1 h2
    have hb : (validateOption == some false) = false := beq_eq_false_iff_ne.mpr h1
    simp [packSketchValidation, hb, h2]
  · intro h
    simp [packSketchValidation, h]
  · intro h
    subst h
    simp [packSketchValidation]

/-- Witness for C3 (amended): the all-missing directory fails validation and
the packer step raises the fixed error. -/
theorem packSketchValidation_spec_witness :
    (validateSketchDirectory dirAllMissing).valid = false ∧
    packSketchValidation none dirAllMissing =
      .error { message := "Sketch validation failed" } :=
  ⟨by decide, (packSketchValidation_spec none dirAllMissing).1 (by decide) (by decide)⟩

/-! ### C4: a parse failure aborts the cross-file walk -/

theorem startsWithList_self_append (p rest : List Char) :
    startsWithList p (p ++ rest) = true := by
  induction p with
  | nil => rfl
  | cons c cs ih => simp [startsWithList, ih]

theorem replaceFirstAux_self_append (c : Char) (cs rest : List Char) :
    replaceFirstAux (c :: cs) ((c :: cs) ++ rest) = rest := by
  rw [List.cons_append]
  unfold replaceFirstAux
  rw [if_pos (by rw [← List.cons_append]; exact startsWithList_self_append (c :: cs) rest)]
  rw [← List.cons_append]
  exact List.drop_left (c :: cs) rest

theorem jsReplaceFirst_strip (id : String) :
    jsReplaceFirst ("pages/" ++ id) "pages/" = id := by
  unfold jsReplaceFirst
  rw [String.data_append]
  rw [show ("pages/" : String).data = 'p' :: "ages/".data from rfl]
  rw [replaceFirstAux_self_append 'p' "ages/".data id.data]

/-- A page reference as `packSketch` writes it into `document.json`:
`{_class: "MSJSONFileReference", _ref_class: "MSImmutablePage",
_ref: "pages/<id>"}`. -/
def mkPageRef (id : String) : JsVal :=
  .obj [("_class", .str "MSJSONFileReference"),
        ("_ref_class", .str "MSImmutablePage"),
        ("_ref", .str ("pages/" ++ id))]

/-- C4 (amended): in cross-file mode a page file that fails to parse aborts
the walk through the single enclosing `try`/`catch`: the result keeps the
violations found before the failure (here the document-level ones), appends
the single generic violation `Error parsing JSON: <message>` — not scoped to
the failing file — and validates nothing further (neither `meta.json` nor
`user.json` contribute, whatever their content). -/
theorem validateSketchDirectory_parse_abort (doc : JsVal) (id m : String)
    (metaC userC : Except String JsVal) (extra : List (String × Except String JsVal))
    (hpages : jsGet doc "pages" = .arr [mkPageRef id]) (hid : id ≠ "") :
    validateSketchDirectory
      { documentFile := some (.ok doc), metaFile := some metaC, userFile := some userC,
        pagesDirExists := true, pageFiles := (id, .error m) :: extra } =
      { valid := false
        errors := validateDocument doc "document" ++ ["Error parsing JSON: " ++ m] } := by
  have hstrip := jsReplaceFirst_strip id
  have hne : (jsReplaceFirst ("pages/" ++ id) "pages/" == "") = false := by
    rw [hstrip]
    exact beq_eq_false_iff_ne.mpr hid
  have hbody : tryBody
      { documentFile := some (.ok doc), metaFile := some metaC, userFile := some userC,
        pagesDirExists := true, pageFiles := (id, .error m) :: extra } (.ok doc) metaC userC =
      (validateDocument doc "document", some m) := by
    simp only [tryBody]
    rw [hpages]
    simp [pageRefsWalk, pageRefStep, mkPageRef, jsGet, lookupField, hne, findPageFile, hstrip, hid]
  simp [validateSketchDirectory, errIf, hbody]

/-- A fully valid `document.json` value with one page reference. -/
def docOnePage : JsVal :=
  .obj [("_class", .str "document"),
        ("do_objectID", .str "AAAAAAAA-AAAA-4AAA-8AAA-AAAAAAAAAAAA"),
        ("appVersion", .str "74.1"),
        ("build", .num 128920),
        ("currentPageIndex", .num 0),
        ("colorSpace", .num 1),
        ("pages", .arr [mkPageRef "A1"]),
        ("assets", .obj [("_class", .str "assetCollection")]),
        ("layerStyles", .obj [("_class", .str "sharedStyleContainer")]),
        ("layerSymbols", .obj [("_class", .str "symbolContainer")]),
        ("layerTextStyles", .obj [("_class", .str "sharedTextStyleContainer")])]

/-- Witness for C4 (amended): a concrete directory whose single page file
fails to parse, instantiating `validateSketchDirectory_parse_abort` and
discharging both hypotheses. -/
theorem validateSketchDirectory_parse_abort_witness :
    validateSketchDirectory
      { documentFile := some (.ok docOnePage), metaFile := some (.ok .null),
        userFile := some (.ok .null), pagesDirExists := true,
        pageFiles := [("A1", .error "bad")] } =
      { valid := false
        errors := validateDocument docOnePage "document" ++ ["Error parsing JSON: bad"] } :=
  validateSketchDirectory_parse_abort docOnePage "A1" "bad" (.ok .null) (.ok .null) []
    rfl (by decide)

/-- A fully valid `document.json` value with two page references. -/
def docTwoPages : JsVal :=
  .obj [("_class", .str "document"),
        ("do_objectID", .str "AAAAAAAA-AAAA-4AAA-8AAA-AAAAAAAAAAAA"),
        ("appVersion", .str "74.1"),
        ("build", .num 128920),
        ("currentPageIndex", .num 0),
        ("colorSpace", .num 1),
        ("pages", .arr [mkPageRef "A1", mkPageRef "B2"]),
        ("assets", .obj [("_class", .str "assetCollection")]),
        ("layerStyles", .obj [("_class", .str "sharedStyleContainer")]),
        ("layerSymbols", .obj [("_class", .str "symbolContainer")]),
        ("layerTextStyles", .obj [("_class", .str "sharedTextStyleContainer")])]

/-- The C4 scenario: two page files exist, the first fails to parse, the
second parses to a value that would yield the violation
`page must be an object`; `meta.json`/`user.json` parse to values that would
yield `meta must be an object` / `user must be an object`. -/
def dirOneBadPage : DirFS :=
  { documentFile := some (.ok docTwoPages)
    metaFile := some (.ok (.str "x"))
    userFile := some (.ok (.str "y"))
    pagesDirExists := true
    pageFiles := [("A1", .error "Unexpected token"), ("B2", .ok .null)] }

/-- Counterexample for C4 as stated: with exactly one unparseable page file,
the walk stops at the single generic violation
`Error parsing JSON: Unexpected token` — the remaining page file (whose
content would violate), `meta.json` and `user.json` are never validated, so
their violations are absent from the report, and no violation mentions the
failing file's name. -/
theorem validateSketchDirectory_abort_counterexample :
    validateSketchDirectory dirOneBadPage =
      { valid := false, errors := ["Error parsing JSON: Unexpected token"] } ∧
    validatePage .null "page" = ["page must be an object"] ∧
    "page must be an object" ∉ (validateSketchDirectory dirOneBadPage).errors ∧
    validateMeta (.str "x") "meta" = ["meta must be an object"] ∧
    "meta must be an object" ∉ (validateSketchDirectory dirOneBadPage).errors := by
  refine ⟨by decide, by decide, by decide, by decide, by decide⟩

/-! ### C5: unrecognized layer tags are silently skipped -/

/-- C5 (amended): appending a layer whose `_class` tag is none of the
variants the validator dispatches on (`rectangle`/`text` inside artboards,
`artboard` inside pages) to a layer list leaves the validation result
bit-for-bit unchanged: the unrecognized layer contributes no violation at
all — the only acknowledgment in the source is a TODO comment
(sketch-validator.cjs line 397). -/
theorem unknownLayerTagSkipped (p : String) (fields : List (String × JsVal))
    (ls : List JsVal) (u : JsVal)
    (h1 : jsEqStr (jsGet u "_class") "rectangle" = false)
    (h2 : jsEqStr (jsGet u "_class") "text" = false)
    (h3 : jsEqStr (jsGet u "_class") "artboard" = false) :
    validateArtboard (.obj (("layers", .arr (ls ++ [u])) :: fields)) p =
      validateArtboard (.obj (("layers", .arr ls) :: fields)) p ∧
    validatePage (.obj (("layers", .arr (ls ++ [u])) :: fields)) p =
      validatePage (.obj (("layers", .arr ls) :: fields)) p := by
  have hstepA : ∀ i, artboardLayerStep p i u = [] := by
    intro i
    simp [artboardLayerStep, h1, h2]
  have hstepP : ∀ i, pageLayerStep p i u = [] := by
    intro i
    simp [pageLayerStep, h3]
  have hwalkA : ∀ i, walkIdx (artboardLayerStep p) i (ls ++ [u]) =
      walkIdx (artboardLayerStep p) i ls := by
    intro i
    rw [walkIdx_append]
    simp [walkIdx, hstepA]
  have hwalkP : ∀ i, walkIdx (pageLayerStep p) i (ls ++ [u]) =
      walkIdx (pageLayerStep p) i ls := by
    intro i
    rw [walkIdx_append]
    simp [walkIdx, hstepP]
  constructor
  · simp only [validateArtboard, jsGet, lookupField]
    simp [hwalkA 0, jsTruthy, jsIsObjectType]
  · simp only [validatePage, jsGet, lookupField]
    simp [hwalkP 0, jsTruthy, jsIsObjectType]

/-- An unrecognized layer: its `_class` tag is `oval`, a variant the
validator has no rule for. -/
def ovalLayer : JsVal := .obj [("_class", .str "oval")]

/-- The non-layer fields of a fully schema-conforming artboard. -/
def artboardFieldsOk : List (String × JsVal) :=
  [("_class", .str "artboard"),
   ("do_objectID", .str "AAAAAAAA-AAAA-4AAA-8AAA-AAAAAAAAAAAA"),
   ("name", .str "Screen"),
   ("groupLayout", .obj [("_class", .str "MSImmutableFreeformGroupLayout")]),
   ("frame", .obj [("_class", .str "rect"), ("x", .num 0), ("y", .num 0),
                   ("width", .num 393), ("height", .num 852)]),
   ("resizingConstraint", .num 63),
   ("booleanOperation", .num (-1)),
   ("exportOptions", .obj [("_class", .str "exportOptions"), ("exportFormats", .arr []),
                           ("includedLayerIds", .arr []), ("layerOptions", .num 0),
                           ("shouldTrim", .bool false)]),
   ("isVisible", .bool true),
   ("hasBackgroundColor", .bool false),
   ("horizontalRulerData", .obj [("_class", .str "rulerData"), ("base", .num 0),
                                 ("guides", .arr [])]),
   ("verticalRulerData", .obj [("_class", .str "rulerData"), ("base", .num 0),
                               ("guides", .arr [])]),
   ("hasClickThrough", .bool true)]

/-- The non-layer fields of a fully schema-conforming page. -/
def pageFieldsOk : List (String × JsVal) :=
  [("_class", .str "page"),
   ("do_objectID", .str "AAAAAAAA-AAAA-4AAA-8AAA-AAAAAAAAAAAA"),
   ("name", .str "Page 1"),
   ("groupLayout", .obj [("_class", .str "MSImmutableFreeformGroupLayout")]),
   ("horizontalRulerData", .obj [("_class", .str "rulerData"), ("base", .num 0),
                                 ("guides", .arr [])]),
   ("verticalRulerData", .obj [("_class", .str "rulerData"), ("base", .num 0),
                               ("guides", .arr [])]),
   ("hasClickThrough", .bool true),
   ("exportOptions", .obj [("_class", .str "exportOptions"), ("exportFormats", .arr []),
                           ("includedLayerIds", .arr []), ("layerOptions", .num 0),
                           ("shouldTrim", .bool false)])]

/-- Counterexample for C5 as stated: an otherwise fully valid artboard (and
page) whose layer list holds one layer with the unrecognized tag `oval`
validates with zero violations — the unrecognized tag at the polymorphic
slot is accepted with neither a Violation nor any machine-visible
exemption. -/
theorem validate_unknown_tag_no_violation :
    validateArtboard (.obj (("layers", .arr [ovalLayer]) :: artboardFieldsOk)) "artboard" = [] ∧
    validatePage (.obj (("layers", .arr [ovalLayer]) :: pageFieldsOk)) "page" = [] ∧
    jsEqStr (jsGet ovalLayer "_class") "rectangle" = false ∧
    jsEqStr (jsGet ovalLayer "_class") "text" = false ∧
    jsEqStr (jsGet ovalLayer "_class") "artboard" = false := by
  refine ⟨by decide, by decide, by decide, by decide, by decide⟩

/-- Witness for C5 (amended): instantiating `unknownLayerTagSkipped` at the
concrete artboard/page fixtures with the `oval` layer appended to an empty
layer list. -/
theorem unknownLayerTagSkipped_witness :
    validateArtboard (.obj (("layers", .arr ([] ++ [ovalLayer])) :: artboardFieldsOk))
        "artboard" =
      validateArtboard (.obj (("layers", .arr []) :: artboardFieldsOk)) "artboard" ∧
    validatePage (.obj (("layers", .arr ([] ++ [ovalLayer])) :: artboardFieldsOk)) "artboard" =
      validatePage (.obj (("layers", .arr []) :: artboardFieldsOk)) "artboard" :=
  unknownLayerTagSkipped "artboard" artboardFieldsOk [] ovalLayer rfl rfl rfl
